import Mathlib

/-!
# OpenGL texture resource (`src/modules/graphics/opengl/Texture.cpp`)

A shallow embedding of the volatile lifecycle of the OpenGL `Texture` class:
`createFBO`, `newRenderbuffer`, `createTexture`, `createRenderbuffer`,
`loadVolatile`, `unloadVolatile`, `uploadByteData`, `generateMipmaps` and
`setSamplerState`.

* The C++ object and the global driver state are one explicit `World`,
  passed through every operation.
* Every state-changing call made to the driver (and to the Graphics module) is
  appended to a call log, so that "which calls were issued" is a property of
  the final state.
* A C++ exception is an `Outcome` whose `error` is `some _`; the state reached
  at the throw point is kept, as in C++.
* What the driver answers (generated names, framebuffer status, granted
  samples, error flag) is a `Driver` record, quantified over in the theorems.
* Helpers that live outside `Texture.cpp` (pixel-format tables, base class
  validation) are fields of `Env`.
* `int` dimensions, counts and handles are natural numbers. The memory
  footprint is the one place where the source does arithmetic that can leave
  its type, and it is computed in machine arithmetic (LP64: `int` 32 bits,
  `size_t` and `int64` 64 bits, two's complement wrap-around).
-/

namespace GLTexture

/-! ## Data model -/

abbrev GLenum := Nat
abbrev GLuint := Nat

def GL_NONE : GLenum := 0
def GL_NO_ERROR : GLenum := 0
def GL_FRAMEBUFFER_COMPLETE : GLenum := 0x8CD5
def GL_TEXTURE_USAGE_ANGLE : GLenum := 0x93A2
def GL_FRAMEBUFFER_ATTACHMENT_ANGLE : GLenum := 0x93A3

/-- The four texture types the file dispatches on. -/
inductive TextureType
  | TEXTURE_2D
  | TEXTURE_VOLUME
  | TEXTURE_2D_ARRAY
  | TEXTURE_CUBE
  deriving DecidableEq, Repr

/-- Pixel formats: the one format the file names, and every other enumerator
by its code. -/
inductive PixelFormat
  | PIXELFORMAT_RGBA8_UNORM
  | other (code : Nat)
  deriving DecidableEq, Repr

/-- Mipmaps mode of the base class; only `MIPMAPS_NONE` is named in the file. -/
inductive MipmapsMode
  | MIPMAPS_NONE
  | enabled (code : Nat)
  deriving DecidableEq, Repr

inductive FilterMode
  | FILTER_LINEAR
  | FILTER_NEAREST
  deriving DecidableEq, Repr

inductive MipmapFilterMode
  | MIPMAP_FILTER_NONE
  | MIPMAP_FILTER_LINEAR
  | MIPMAP_FILTER_NEAREST
  deriving DecidableEq, Repr

inductive WrapMode
  | WRAP_CLAMP
  | other (code : Nat)
  deriving DecidableEq, Repr

/-- The sampler state fields the file reads or writes. `depthSampleMode` is an
optional comparison mode; `hasValue` is `isSome`. -/
structure SamplerState where
  minFilter : FilterMode
  magFilter : FilterMode
  mipmapFilter : MipmapFilterMode
  wrapU : WrapMode
  wrapV : WrapMode
  wrapW : WrapMode
  depthSampleMode : Option Nat
  deriving DecidableEq, Repr

/-- Rectangle with `int` fields, as passed to the upload path. -/
structure Rect where
  x : Int
  y : Int
  w : Int
  h : Int
  deriving DecidableEq, Repr

/-- An image buffer of the slice store: what the file reads of it. -/
structure ImageDataBase where
  format : PixelFormat
  width : Nat
  height : Nat
  size : Nat
  data : List Nat
  deriving DecidableEq, Repr

/-- Modelled from the spec: the Slice Store (`Texture::Slices`, declared in the
base class header) is "a mapping from (slice index, mip level) to an optional
image buffer", with its slice count per mip level and its mip count. -/
structure Slices where
  get : Nat → Nat → Option ImageDataBase
  getSliceCount : Nat → Nat
  getMipmapCount : Nat

/-- Modelled from the spec: `Slices::set` replaces the stored buffer at
(slice, mip). -/
def Slices.set (s : Slices) (slice mip : Nat) (d : ImageDataBase) : Slices :=
  { s with get := fun sl m => if sl = slice ∧ m = mip then some d else s.get sl m }

/-- Driver tokens of a pixel format (`OpenGL::TextureFormat`). -/
structure TextureFormat where
  internalformat : GLenum
  externalformat : GLenum
  type : GLenum
  framebufferAttachments : List GLenum
  deriving DecidableEq, Repr

/-- Upload target: the GL texture type, or `GL_TEXTURE_CUBE_MAP_POSITIVE_X + slice`. -/
inductive GLTarget
  | ofType (t : TextureType)
  | cubeMapPositiveX (slice : Nat)
  deriving DecidableEq, Repr

/-- The declarative settings held by the base class, which no function of
`Texture.cpp` assigns. -/
structure TextureBase where
  texType : TextureType
  format : PixelFormat
  renderTarget : Bool
  readable : Bool
  mipmapsMode : MipmapsMode
  sRGB : Bool
  pixelWidth : Nat
  pixelHeight : Nat
  depth : Nat
  layers : Nat
  requestedMSAA : Nat
  deriving DecidableEq, Repr

/-- The texture object: base class settings plus the fields `Texture.cpp` assigns. -/
structure Texture extends TextureBase where
  mipmapCount : Nat
  samplerState : SamplerState
  graphicsMemorySize : Int
  slices : Slices
  fbo : GLuint
  texture : GLuint
  renderbuffer : GLuint
  framebufferStatus : GLenum
  actualSamples : Nat
  usingDefaultTexture : Bool

/-- State-changing calls issued to the driver (through `gl*` or the `OpenGL`
wrapper), and the one notification sent to the Graphics module. -/
inductive Call
  | genFramebuffers (name : GLuint)
  | bindFramebuffer (name : GLuint)
  | deleteFramebuffer (name : GLuint)
  | drawBuffers (buf : GLenum)
  | drawBuffer (buf : GLenum)
  | readBuffer (buf : GLenum)
  | framebufferTexture (attachment : GLenum) (texType : TextureType) (texture : GLuint)
      (level layer face : Nat)
  | setDepthWrites (enable : Bool)
  | clearDepth (depth : Nat)
  | clearStencil (s : Nat)
  | clearColor (r g b a : Nat)
  | clear (depthBit stencilBit colorBit : Bool)
  | genRenderbuffers (name : GLuint)
  | bindRenderbuffer (name : GLuint)
  | renderbufferStorageMultisample (samples : Nat) (internalformat : GLenum) (width height : Nat)
  | renderbufferStorage (internalformat : GLenum) (width height : Nat)
  | framebufferRenderbuffer (attachment : GLenum) (buffer : GLuint)
  | deleteRenderbuffers (name : GLuint)
  | genTextures (name : GLuint)
  | bindTextureToUnit (texType : TextureType) (texture : GLuint) (unit : Nat)
  | deleteTexture (name : GLuint)
  | rawTexStorage (texType : TextureType) (levels : Nat) (format : PixelFormat) (sRGB : Bool)
      (width height depth : Nat)
  | texParameteri (texType : TextureType) (pname param : GLenum)
  | compressedTexImage3D (texType : TextureType) (level : Nat) (internalformat : GLenum)
      (width height depth size : Nat)
  | compressedTexImage2D (target : GLTarget) (level : Nat) (internalformat : GLenum)
      (w h : Int) (size : Nat) (data : List Nat)
  | compressedTexSubImage3D (target : GLTarget) (level slice : Nat) (w h : Int)
      (internalformat : GLenum) (size : Nat) (data : List Nat)
  | texSubImage2D (target : GLTarget) (level : Nat) (x y w h : Int)
      (externalformat type : GLenum) (data : List Nat)
  | texSubImage3D (target : GLTarget) (level : Nat) (x y : Int) (slice : Nat) (w h : Int)
      (externalformat type : GLenum) (data : List Nat)
  | enable (texType : TextureType)
  | generateMipmap (texType : TextureType)
  | setSamplerState (texType : TextureType) (s : SamplerState)
  | cleanupRenderTexture
  deriving DecidableEq, Repr

/-- The part of the global driver state the file reads back: the bound
framebuffer, the depth-write mask, and the log of calls issued so far. -/
structure GLState where
  framebuffer : GLuint
  depthWrites : Bool
  log : List Call
  deriving DecidableEq, Repr

/-- The texture object together with the driver state. -/
structure World where
  tex : Texture
  gl : GLState

/-- The exceptions thrown in `Texture.cpp`, one constructor per message, and the
exception of the base class validation. -/
inductive Exception
  | cannotCreateTexture (glerr : GLenum)
  | compressedOrigin
  | mipmapsNotEnabled
  | mipmapsCompressed
  | depthCompareUnsupported
  | baseValidation
  deriving DecidableEq, Repr

/-- Result of an operation that may throw: the state reached, and the
exception if one is in flight. -/
structure Outcome where
  world : World
  error : Option Exception

/-- Collaborators outside `Texture.cpp`: pixel-format helpers, the format adapter,
`nextP2`, and the validation done by the base class. -/
structure Env where
  isPixelFormatCompressed : PixelFormat → Bool
  isPixelFormatDepthStencil : PixelFormat → Bool
  getPixelFormatSliceSize : PixelFormat → Nat → Nat → Nat
  convertPixelFormat : PixelFormat → Bool → Bool → TextureFormat
  hasTextureFilteringSupport : PixelFormat → Bool
  nextP2 : Nat → Nat
  validateDimensions : TextureBase → Bool
  baseSamplerStateValid : Texture → SamplerState → Bool
  graphicsModule : Bool

/-- Capabilities of the driver and its answers to the queries of one load:
the names handed out by `glGen*`, the two framebuffer status reports, the
sample count reported for the renderbuffer, and the error flag read after
creation. -/
structure Driver where
  GLAD_ES_VERSION_2_0 : Bool
  GLAD_ES_VERSION_3_0 : Bool
  GLAD_OES_texture_npot : Bool
  GLAD_ANGLE_texture_usage : Bool
  maxSamples : Nat
  isDepthCompareSampleSupported : Bool
  generateMipmapsRequiresTexture2DEnable : Bool
  textureName : GLuint
  framebufferName : GLuint
  renderbufferName : GLuint
  tempFramebufferName : GLuint
  textureFramebufferStatus : GLenum
  renderbufferFramebufferStatus : GLenum
  renderbufferSamples : Nat
  creationError : GLenum

/-! ## Plumbing -/

def GLState.call (g : GLState) (c : Call) : GLState :=
  { g with log := g.log ++ [c] }

/-- Wrapper call `gl.bindFramebuffer(FRAMEBUFFER_ALL, fb)`. -/
def GLState.bindFramebuffer (g : GLState) (fb : GLuint) : GLState :=
  { g with framebuffer := fb, log := g.log ++ [Call.bindFramebuffer fb] }

/-- Wrapper call `gl.setDepthWrites(enable)`. -/
def GLState.setDepthWrites (g : GLState) (enable : Bool) : GLState :=
  { g with depthWrites := enable, log := g.log ++ [Call.setDepthWrites enable] }

def World.call (w : World) (c : Call) : World :=
  { w with gl := w.gl.call c }

def Outcome.ok (w : World) : Outcome := ⟨w, none⟩

def Outcome.throw (e : Exception) (w : World) : Outcome := ⟨w, some e⟩

/-- Sequencing: the continuation runs unless an exception is in flight. -/
def Outcome.andThen (o : Outcome) (f : World → Outcome) : Outcome :=
  match o.error with
  | none => f o.world
  | some _ => o

/-- A `for` loop over the given indices whose body may throw. -/
def forEach {α : Type} : List α → (α → World → Outcome) → World → Outcome
  | [], _, w => Outcome.ok w
  | a :: rest, body, w => (body a w).andThen (forEach rest body)

/-- Whether a call is a `glClear`. -/
def Call.isClear : Call → Bool
  | Call.clear _ _ _ => true
  | _ => false

/-- Whether a call is a `glGenRenderbuffers`. -/
def Call.isGenRenderbuffers : Call → Bool
  | Call.genRenderbuffers _ => true
  | _ => false

/-- Whether a call is a `glGenerateMipmap`. -/
def Call.isGenerateMipmap : Call → Bool
  | Call.generateMipmap _ => true
  | _ => false

/-! ## Base class getters -/

def isCompressed (env : Env) (t : Texture) : Bool :=
  env.isPixelFormatCompressed t.format

/-- Modelled from the spec: `getPixelWidth(mip)` is a base class getter that is
not in `Texture.cpp`; "mip-level dimensions halve (floor, minimum 1) at each step". -/
def getPixelWidth (t : Texture) (mip : Nat) : Nat := max (t.pixelWidth / 2 ^ mip) 1

/-- Modelled from the spec: `getPixelHeight(mip)`, as `getPixelWidth`. -/
def getPixelHeight (t : Texture) (mip : Nat) : Nat := max (t.pixelHeight / 2 ^ mip) 1

/-- Modelled from the spec: `getDepth(mip)`, as `getPixelWidth`; the depth of a
texture that is not a volume is 1 at every level. -/
def getDepth (t : Texture) (mip : Nat) : Nat := max (t.depth / 2 ^ mip) 1

/-- Number of cube faces per layer: `texType == TEXTURE_CUBE ? 6 : 1`. -/
def faceCount (texType : TextureType) : Nat :=
  if texType = TextureType.TEXTURE_CUBE then 6 else 1

/-! ## Sampler state, upload and mipmap generation -/

/-- Modelled from the spec: the base class `setSamplerState` is not in
`Texture.cpp`; it "does common validation and assigns samplerState". -/
def baseSetSamplerState (env : Env) (s : SamplerState) (w : World) : Outcome :=
  if env.baseSamplerStateValid w.tex s = true then
    Outcome.ok { w with tex := { w.tex with samplerState := s } }
  else
    Outcome.throw Exception.baseValidation w

/-- The three driver-specific downgrades of `Texture::setSamplerState`
(source lines 522-542), applied to the assigned sampler state. -/
def downgradeSamplerState (env : Env) (drv : Driver) (t : Texture) : SamplerState :=
  let s0 := t.samplerState
  let s1 :=
    if env.hasTextureFilteringSupport t.format = false then
      let s := { s0 with magFilter := FilterMode.FILTER_NEAREST,
                         minFilter := FilterMode.FILTER_NEAREST }
      if s.mipmapFilter = MipmapFilterMode.MIPMAP_FILTER_LINEAR then
        { s with mipmapFilter := MipmapFilterMode.MIPMAP_FILTER_NEAREST }
      else s
    else s0
  let s2 :=
    if t.usingDefaultTexture = true then
      { s1 with mipmapFilter := MipmapFilterMode.MIPMAP_FILTER_NONE,
                minFilter := FilterMode.FILTER_NEAREST,
                magFilter := FilterMode.FILTER_NEAREST }
    else s1
  if (drv.GLAD_ES_VERSION_2_0 = true ∧ ¬ (drv.GLAD_ES_VERSION_3_0 = true ∨ drv.GLAD_OES_texture_npot = true))
      ∧ (t.pixelWidth ≠ env.nextP2 t.pixelWidth ∨ t.pixelHeight ≠ env.nextP2 t.pixelHeight
          ∨ t.depth ≠ env.nextP2 t.depth) then
    { s2 with wrapU := WrapMode.WRAP_CLAMP, wrapV := WrapMode.WRAP_CLAMP,
              wrapW := WrapMode.WRAP_CLAMP }
  else s2

/-- Source: `Texture::setSamplerState` (lines 514-546). The depth-comparison
test reads the member `samplerState`, as the source does. -/
def setSamplerState (env : Env) (drv : Driver) (s : SamplerState) (w : World) : Outcome :=
  if w.tex.samplerState.depthSampleMode.isSome = true ∧ drv.isDepthCompareSampleSupported = false then
    Outcome.throw Exception.depthCompareUnsupported w
  else
    (baseSetSamplerState env s w).andThen fun w1 =>
      let s3 := downgradeSamplerState env drv w1.tex
      let w2 : World := { w1 with tex := { w1.tex with samplerState := s3 } }
      let w3 := w2.call (Call.bindTextureToUnit w2.tex.texType w2.tex.texture 0)
      Outcome.ok (w3.call (Call.setSamplerState w3.tex.texType w3.tex.samplerState))

/-- Source lines 426-434: the stored buffer is replaced only when a new buffer
is given, an old one exists, and their dimensions match. -/
def replaceSlice (level slice : Nat) (imgd : Option ImageDataBase) (w : World) : World :=
  let oldd := w.tex.slices.get slice level
  match imgd, oldd with
  | some i, some o =>
    if o.width = i.width ∧ o.height = i.height then
      { w with tex := { w.tex with slices := w.tex.slices.set slice level i } }
    else w
  | _, _ => w

/-- Source: `Texture::uploadByteData` (lines 424-463). -/
def uploadByteData (env : Env) (pixelformat : PixelFormat) (data : List Nat) (size : Nat)
    (level slice : Nat) (r : Rect) (imgd : Option ImageDataBase) (w : World) : Outcome :=
  let w1 : World := replaceSlice level slice imgd w
  let w2 := w1.call (Call.bindTextureToUnit w1.tex.texType w1.tex.texture 0)
  let fmt := env.convertPixelFormat pixelformat false w2.tex.sRGB
  let texType := w2.tex.texType
  let gltarget :=
    if texType = TextureType.TEXTURE_CUBE then GLTarget.cubeMapPositiveX slice
    else GLTarget.ofType texType
  if env.isPixelFormatCompressed pixelformat = true then
    if r.x ≠ 0 ∨ r.y ≠ 0 then
      Outcome.throw Exception.compressedOrigin w2
    else if texType = TextureType.TEXTURE_2D ∨ texType = TextureType.TEXTURE_CUBE then
      Outcome.ok (w2.call (Call.compressedTexImage2D gltarget level fmt.internalformat r.w r.h size data))
    else if texType = TextureType.TEXTURE_2D_ARRAY ∨ texType = TextureType.TEXTURE_VOLUME then
      Outcome.ok (w2.call (Call.compressedTexSubImage3D gltarget level slice r.w r.h
        fmt.internalformat size data))
    else Outcome.ok w2
  else
    if texType = TextureType.TEXTURE_2D ∨ texType = TextureType.TEXTURE_CUBE then
      Outcome.ok (w2.call (Call.texSubImage2D gltarget level r.x r.y r.w r.h
        fmt.externalformat fmt.type data))
    else if texType = TextureType.TEXTURE_2D_ARRAY ∨ texType = TextureType.TEXTURE_VOLUME then
      Outcome.ok (w2.call (Call.texSubImage3D gltarget level r.x r.y slice r.w r.h
        fmt.externalformat fmt.type data))
    else Outcome.ok w2

/-- Modelled from the spec: the base class `uploadImageData` is not in
`Texture.cpp`; "if source data exists in the Slice Store, upload it" through the byte
upload path, with the buffer's own format, bytes and dimensions at (x, y). -/
def uploadImageData (env : Env) (d : ImageDataBase) (level slice : Nat) (x y : Int)
    (w : World) : Outcome :=
  uploadByteData env d.format d.data d.size level slice ⟨x, y, d.width, d.height⟩ (some d) w

/-- Source: `Texture::generateMipmaps` (lines 465-481). -/
def generateMipmaps (env : Env) (drv : Driver) (w : World) : Outcome :=
  if w.tex.mipmapCount = 1 ∨ w.tex.mipmapsMode = MipmapsMode.MIPMAPS_NONE then
    Outcome.throw Exception.mipmapsNotEnabled w
  else if env.isPixelFormatCompressed w.tex.format = true then
    Outcome.throw Exception.mipmapsCompressed w
  else
    let w1 := w.call (Call.bindTextureToUnit w.tex.texType w.tex.texture 0)
    let gltextype := w1.tex.texType
    let w2 := if drv.generateMipmapsRequiresTexture2DEnable = true then w1.call (Call.enable gltextype) else w1
    Outcome.ok (w2.call (Call.generateMipmap gltextype))

/-! ## Framebuffer and renderbuffer builders -/

/-- The clear sequence written out twice in the source (lines 80-97 in
`createFBO`, lines 156-174 in `newRenderbuffer`): depth 1.0 / stencil 0 with
the depth mask toggled around it for depth-stencil formats, transparent black
otherwise. -/
def clearAttachments (env : Env) (format : PixelFormat) (gl : GLState) : GLState :=
  if env.isPixelFormatDepthStencil format = true then
    let hadDepthWrites := gl.depthWrites
    let g1 := if hadDepthWrites = false then gl.setDepthWrites true else gl
    let g2 := ((g1.call (Call.clearDepth 1)).call (Call.clearStencil 0)).call (Call.clear true true false)
    if hadDepthWrites = false then g2.setDepthWrites hadDepthWrites else g2
  else
    (gl.call (Call.clearColor 0 0 0 0)).call (Call.clear false false true)

/-- Source lines 47-56 and 122-131: colour draw/read buffers are disabled for
depth-stencil formats on drivers that need explicit buffer selection. -/
def disableColorBuffers (env : Env) (drv : Driver) (format : PixelFormat) (gl : GLState) : GLState :=
  if env.isPixelFormatDepthStencil format = true
      ∧ (drv.GLAD_ES_VERSION_3_0 = true ∨ drv.GLAD_ES_VERSION_2_0 = false) then
    let g1 := if drv.GLAD_ES_VERSION_3_0 = true then gl.call (Call.drawBuffers GL_NONE)
              else gl.call (Call.drawBuffer GL_NONE)
    g1.call (Call.readBuffer GL_NONE)
  else gl

/-- Body of the innermost loops of `createFBO` for one (layer, face): attach
level 0 of that layer and face at every role that is not `GL_NONE`, then clear
if requested (source lines 70-98). -/
def attachAndClear (env : Env) (fmt : TextureFormat) (texType : TextureType) (format : PixelFormat)
    (texture : GLuint) (clear : Bool) (layer face : Nat) (gl : GLState) : GLState :=
  let g1 := fmt.framebufferAttachments.foldl
    (fun g attachment =>
      if attachment = GL_NONE then g
      else g.call (Call.framebufferTexture attachment texType texture 0 layer face)) gl
  if clear = true then clearAttachments env format g1 else g1

/-- Source: `createFBO` (lines 37-107). Returns the driver state, the
framebuffer name written through the reference parameter, and the status. -/
def createFBO (env : Env) (drv : Driver) (texType : TextureType) (format : PixelFormat)
    (texture : GLuint) (layers : Nat) (clear : Bool) (gl : GLState) : GLState × GLuint × GLenum :=
  let current_fbo := gl.framebuffer
  let framebuffer := drv.framebufferName
  let g1 := (gl.call (Call.genFramebuffers framebuffer)).bindFramebuffer framebuffer
  let g2 :=
    if texture ≠ 0 then
      let g := disableColorBuffers env drv format g1
      let fmt := env.convertPixelFormat format false false
      let faces := faceCount texType
      (List.range layers).reverse.foldl
        (fun g layer =>
          (List.range faces).reverse.foldl
            (fun g face => attachAndClear env fmt texType format texture clear layer face g) g) g
    else g1
  let status := drv.textureFramebufferStatus
  (g2.bindFramebuffer current_fbo, framebuffer, status)

/-- Source: `newRenderbuffer` (lines 109-187). Returns the driver state, the
sample count and buffer name written through the reference parameters, and the
boolean result. -/
def newRenderbuffer (env : Env) (drv : Driver) (width height samples : Nat)
    (pixelformat : PixelFormat) (gl : GLState) : GLState × Nat × GLuint × Bool :=
  let reqsamples := samples
  let fmt := env.convertPixelFormat pixelformat true false
  let current_fbo := gl.framebuffer
  let fbo := drv.tempFramebufferName
  let g1 := (gl.call (Call.genFramebuffers fbo)).bindFramebuffer fbo
  let g2 := disableColorBuffers env drv pixelformat g1
  let buffer := drv.renderbufferName
  let g3 := (g2.call (Call.genRenderbuffers buffer)).call (Call.bindRenderbuffer buffer)
  let g4 :=
    if samples > 1 then g3.call (Call.renderbufferStorageMultisample samples fmt.internalformat width height)
    else g3.call (Call.renderbufferStorage fmt.internalformat width height)
  let g5 := fmt.framebufferAttachments.foldl
    (fun g attachment =>
      if attachment ≠ GL_NONE then g.call (Call.framebufferRenderbuffer attachment buffer) else g) g4
  let samples1 := if samples > 1 then drv.renderbufferSamples else samples
  let g6 := g5.call (Call.bindRenderbuffer 0)
  let status := drv.renderbufferFramebufferStatus
  if status = GL_FRAMEBUFFER_COMPLETE ∧ (reqsamples ≤ 1 ∨ samples1 > 1) then
    let g7 := clearAttachments env pixelformat g6
    let g8 := (g7.bindFramebuffer current_fbo).call (Call.deleteFramebuffer fbo)
    (g8, samples1, buffer, decide (status = GL_FRAMEBUFFER_COMPLETE))
  else
    let g7 := g6.call (Call.deleteRenderbuffers buffer)
    let g8 := (g7.bindFramebuffer current_fbo).call (Call.deleteFramebuffer fbo)
    (g8, 1, 0, decide (status = GL_FRAMEBUFFER_COMPLETE))

/-! ## Texture storage creation -/

/-- The local variables `w`, `h`, `d` of `createTexture`. -/
structure Extent where
  w : Nat
  h : Nat
  d : Nat
  deriving DecidableEq, Repr

/-- The checkerboard bytes `px` of the default texture (source lines 230-231). -/
def defaultTexturePixels : List Nat :=
  [0xFF, 0xFF, 0xFF, 0xFF, 0xFF, 0xA0, 0xA0, 0xFF,
   0xFF, 0xA0, 0xA0, 0xFF, 0xFF, 0xFF, 0xFF, 0xFF]

/-- Source lines 270-283: total byte size of the slices present at a mip level. -/
def compressedMipSize (slices : Slices) (mip : Nat) : Nat :=
  (List.range (slices.getSliceCount mip)).foldl
    (fun mipsize slice =>
      match slices.get slice mip with
      | some id => mipsize + id.size
      | none => mipsize) 0

/-- One iteration of the mip loop of `createTexture` up to the halving of the
extent (source lines 268-291). -/
def createTextureLevel (env : Env) (fmt : TextureFormat) (slicecount mip : Nat) (e : Extent)
    (w : World) : Outcome :=
  let texType := w.tex.texType
  let w1 :=
    if isCompressed env w.tex = true
        ∧ (texType = TextureType.TEXTURE_2D_ARRAY ∨ texType = TextureType.TEXTURE_VOLUME) then
      let mipsize := compressedMipSize w.tex.slices mip
      if mipsize > 0 then
        w.call (Call.compressedTexImage3D texType mip fmt.internalformat e.w e.h e.d mipsize)
      else w
    else w
  forEach (List.range slicecount)
    (fun slice v =>
      match v.tex.slices.get slice mip with
      | some id => uploadImageData env id mip slice 0 0 v
      | none => Outcome.ok v) w1

/-- The mip loop of `createTexture` (source lines 266-298) over the remaining
levels; returns the extent left in `w`, `h`, `d` when the loop ends. -/
def createTextureLevels (env : Env) (fmt : TextureFormat) (slicecount : Nat) :
    List Nat → Extent → World → Outcome × Extent
  | [], e, w => (Outcome.ok w, e)
  | mip :: rest, e, w =>
    let o := createTextureLevel env fmt slicecount mip e w
    match o.error with
    | some _ => (o, e)
    | none =>
      let e1 : Extent :=
        { w := max (e.w / 2) 1, h := max (e.h / 2) 1,
          d := if o.world.tex.texType = TextureType.TEXTURE_VOLUME then max (e.d / 2) 1 else e.d }
      createTextureLevels env fmt slicecount rest e1 o.world

/-- Source lines 217-239: the 2x2 default texture substituted when the
dimensions are not valid for the system. -/
def createDefaultTexture (env : Env) (drv : Driver) (w : World) : Outcome :=
  let w1 : World := { w with tex := { w.tex with usingDefaultTexture := true } }
  (setSamplerState env drv w1.tex.samplerState w1).andThen fun w2 =>
    let isSRGB := false
    let w3 := w2.call (Call.rawTexStorage w2.tex.texType 1 PixelFormat.PIXELFORMAT_RGBA8_UNORM isSRGB 2 2 1)
    let slices := if w3.tex.texType = TextureType.TEXTURE_CUBE then 6 else 1
    let rect : Rect := ⟨0, 0, 2, 2⟩
    forEach (List.range slices)
      (fun slice v =>
        uploadByteData env PixelFormat.PIXELFORMAT_RGBA8_UNORM defaultTexturePixels
          defaultTexturePixels.length 0 slice rect none v) w3

/-- Source lines 300-326: after the mip loop, build the framebuffer of a
render target or blank-initialise, then generate mipmaps if needed. `e` is the
extent left by the loop. -/
def finishTexture (env : Env) (drv : Driver) (e : Extent) (w : World) : Outcome :=
  let hasdata := (w.tex.slices.get 0 0).isSome
  let o1 : Outcome :=
    if w.tex.renderTarget = true then
      let clear := !hasdata
      let slices := if w.tex.texType = TextureType.TEXTURE_VOLUME then w.tex.depth else w.tex.layers
      let r := createFBO env drv w.tex.texType w.tex.format w.tex.texture slices clear w.gl
      Outcome.ok { tex := { w.tex with fbo := r.2.1, framebufferStatus := r.2.2 }, gl := r.1 }
    else if hasdata = false then
      let n := env.getPixelFormatSliceSize w.tex.format e.w e.h
      let emptydata : List Nat := List.replicate n 0
      let r : Rect := ⟨0, 0, e.w, e.h⟩
      let slices0 := if w.tex.texType = TextureType.TEXTURE_VOLUME then w.tex.depth else w.tex.layers
      let slices := if w.tex.texType = TextureType.TEXTURE_CUBE then 6 else slices0
      forEach (List.range slices)
        (fun i v => uploadByteData env v.tex.format emptydata emptydata.length 0 i r none v) w
    else Outcome.ok w
  o1.andThen fun w1 =>
    if w1.tex.mipmapCount > 1 ∧ w1.tex.slices.getMipmapCount ≤ 1 then
      generateMipmaps env drv w1
    else Outcome.ok w1

/-- Source lines 241-298 and on: the regular path of `createTexture`. -/
def createRegularTexture (env : Env) (drv : Driver) (w : World) : Outcome :=
  let gltype := w.tex.texType
  let w1 :=
    if w.tex.renderTarget = true ∧ drv.GLAD_ANGLE_texture_usage = true then
      w.call (Call.texParameteri gltype GL_TEXTURE_USAGE_ANGLE GL_FRAMEBUFFER_ATTACHMENT_ANGLE)
    else w
  (setSamplerState env drv w1.tex.samplerState w1).andThen fun w2 =>
    let texType := w2.tex.texType
    let mipcount := w2.tex.mipmapCount
    let slicecount :=
      if texType = TextureType.TEXTURE_VOLUME then w2.tex.depth
      else if texType = TextureType.TEXTURE_2D_ARRAY then w2.tex.layers
      else if texType = TextureType.TEXTURE_CUBE then 6
      else 1
    let w3 :=
      if isCompressed env w2.tex = false then
        w2.call (Call.rawTexStorage texType mipcount w2.tex.format w2.tex.sRGB w2.tex.pixelWidth
          w2.tex.pixelHeight (if texType = TextureType.TEXTURE_VOLUME then w2.tex.depth else w2.tex.layers))
      else w2
    let e0 : Extent := ⟨w3.tex.pixelWidth, w3.tex.pixelHeight, w3.tex.depth⟩
    let fmt := env.convertPixelFormat w3.tex.format false w3.tex.sRGB
    let r := createTextureLevels env fmt slicecount (List.range mipcount) e0 w3
    r.1.andThen (finishTexture env drv r.2)

/-- Source: `Texture::createTexture` (lines 208-327). -/
def createTexture (env : Env) (drv : Driver) (w : World) : Outcome :=
  let w1 : World := { w with tex := { w.tex with texture := drv.textureName } }
  let w2 := w1.call (Call.genTextures drv.textureName)
  let w3 := w2.call (Call.bindTextureToUnit w2.tex.texType w2.tex.texture 0)
  if w3.tex.renderTarget = false ∧ env.validateDimensions w3.tex.toTextureBase = false then
    createDefaultTexture env drv w3
  else
    createRegularTexture env drv w3

/-- Source: `Texture::createRenderbuffer` (lines 329-335); the second
component is the boolean result. -/
def createRenderbuffer (env : Env) (drv : Driver) (w : World) : World × Bool :=
  if w.tex.readable = true ∧ w.tex.actualSamples ≤ 1 then
    (w, true)
  else
    let r := newRenderbuffer env drv w.tex.pixelWidth w.tex.pixelHeight w.tex.actualSamples
      w.tex.format w.gl
    ({ tex := { w.tex with actualSamples := r.2.1, renderbuffer := r.2.2.1 }, gl := r.1 }, r.2.2.2)

/-! ## Volatile lifecycle -/

/-- Modelled from the spec: the base class `setGraphicsMemorySize` is not in
`Texture.cpp`; the footprint is "reported to the memory accounting collaborator".
The field holds the `int64` value last passed. -/
def setGraphicsMemorySize (bytes : Int) (w : World) : World :=
  { w with tex := { w.tex with graphicsMemorySize := bytes } }

/-- Source: `Texture::unloadVolatile` (lines 397-422). -/
def unloadVolatile (env : Env) (w : World) : World :=
  let w1 :=
    if w.tex.renderTarget = true ∧ (w.tex.fbo ≠ 0 ∨ w.tex.renderbuffer ≠ 0 ∨ w.tex.texture ≠ 0) then
      if env.graphicsModule = true then w.call Call.cleanupRenderTexture else w
    else w
  let w2 := if w1.tex.fbo ≠ 0 then w1.call (Call.deleteFramebuffer w1.tex.fbo) else w1
  let w3 := if w2.tex.renderbuffer ≠ 0 then w2.call (Call.deleteRenderbuffers w2.tex.renderbuffer) else w2
  let w4 := if w3.tex.texture ≠ 0 then w3.call (Call.deleteTexture w3.tex.texture) else w3
  let w5 : World := { w4 with tex := { w4.tex with fbo := 0, renderbuffer := 0, texture := 0 } }
  setGraphicsMemorySize 0 w5

/-- Source lines 344-350: without full NPOT support, a texture whose width or
height is not a power of two loses its mipmaps. -/
def degradeNPOT (env : Env) (drv : Driver) (w : World) : World :=
  if (drv.GLAD_ES_VERSION_2_0 = true ∧ ¬ (drv.GLAD_ES_VERSION_3_0 = true ∨ drv.GLAD_OES_texture_npot = true))
      ∧ (w.tex.pixelWidth ≠ env.nextP2 w.tex.pixelWidth ∨ w.tex.pixelHeight ≠ env.nextP2 w.tex.pixelHeight) then
    { w with tex := { w.tex with
        mipmapCount := 1,
        samplerState := { w.tex.samplerState with mipmapFilter := MipmapFilterMode.MIPMAP_FILTER_NONE } } }
  else w

/-- Source lines 344-352: the NPOT degradation, then the clamp of the requested
sample count to `[1, gl.getMaxSamples()]`. -/
def beginLoad (env : Env) (drv : Driver) (w : World) : World :=
  let w1 := degradeNPOT env drv w
  { w1 with tex := { w1.tex with actualSamples := max 1 (min w1.tex.requestedMSAA drv.maxSamples) } }

/-- Source lines 356-366: the body of the `try` block. The error flag was
emptied just before (line 354), so the flag read at line 363 is the driver's
answer for this creation. -/
def createResources (env : Env) (drv : Driver) (w : World) : Outcome :=
  (if w.tex.readable = true then createTexture env drv w else Outcome.ok w).andThen fun w1 =>
    let w2 := if w1.tex.readable = false ∨ w1.tex.actualSamples > 1 then (createRenderbuffer env drv w1).1 else w1
    let glerr := drv.creationError
    if glerr ≠ GL_NO_ERROR then Outcome.throw (Exception.cannotCreateTexture glerr) w2
    else Outcome.ok w2

/-- Conversion of an integer value to `size_t` (64 bits): its residue modulo
2^64. -/
def toSizeT (x : Int) : Nat := (x % 2 ^ 64).toNat

/-- A `size_t` result returned by a collaborator. -/
def asSizeT (n : Nat) : Nat := n % 2 ^ 64

/-- Multiplication in `size_t`. -/
def sizeMul (a b : Nat) : Nat := (a * b) % 2 ^ 64

/-- Conversion of an integer value to `int64`: two's complement wrap-around. -/
def toInt64 (x : Int) : Int := (x + 2 ^ 63) % 2 ^ 64 - 2 ^ 63

/-- An `int` result: two's complement wrap-around at 32 bits (what the
compilers in use produce where the standard leaves overflow undefined). -/
def toInt32 (x : Int) : Int := (x + 2 ^ 31) % 2 ^ 32 - 2 ^ 31

/-- Source lines 377-380: one iteration of the footprint loop. `slices` is an
`int` product; `getPixelFormatSliceSize(...) * slices` is a `size_t` product
(the `int` is converted to `size_t`); `memsize +=` adds in 64 bits and stores
the result in the `int64`. -/
def accumulateLevel (env : Env) (t : Texture) (memsize : Int) (mip : Nat) : Int :=
  let w := getPixelWidth t mip
  let h := getPixelHeight t mip
  let slices : Int :=
    toInt32 ((getDepth t mip : Int) * (t.layers : Int) * (faceCount t.texType : Int))
  toInt64 (memsize
    + ((sizeMul (asSizeT (env.getPixelFormatSliceSize t.format w h)) (toSizeT slices) : Nat) : Int))

/-- Source lines 373-389: the memory footprint computed after creation, in the
source's integer types. -/
def computeMemorySize (env : Env) (t : Texture) : Int :=
  let memsize : Int := (List.range t.mipmapCount).foldl (accumulateLevel env t) 0
  if t.actualSamples > 1 ∧ t.readable = true then
    let slices : Int :=
      toInt32 ((t.depth : Int) * (t.layers : Int) * (faceCount t.texType : Int))
    toInt64 (memsize
      + ((sizeMul
            (sizeMul (asSizeT (env.getPixelFormatSliceSize t.format t.pixelWidth t.pixelHeight))
              (toSizeT slices))
            (toSizeT (t.actualSamples : Int)) : Nat) : Int))
  else if t.actualSamples > 1 then
    toInt64 (memsize * (t.actualSamples : Int))
  else memsize

/-- Source: `Texture::loadVolatile` (lines 337-395). An `Outcome` with an
error is the rethrown exception; without one the function returned `true`.
The loop of line 354 empties the driver's error flags, of which there are
finitely many, and changes nothing else. -/
def loadVolatile (env : Env) (drv : Driver) (w : World) : Outcome :=
  if w.tex.texture ≠ 0 ∨ w.tex.renderbuffer ≠ 0 then
    Outcome.ok w
  else
    let o := createResources env drv (beginLoad env drv w)
    match o.error with
    | some e => Outcome.throw e (unloadVolatile env o.world)
    | none =>
      let memsize := computeMemorySize env o.world.tex
      let w3 := setGraphicsMemorySize memsize o.world
      Outcome.ok { w3 with tex := { w3.tex with usingDefaultTexture := false } }

/-! ## Concrete collaborators, drivers and resources

Used to evaluate the operations at explicit inputs. -/

/-- Collaborators for an uncompressed colour format of 4 bytes per pixel on a
system whose maximum texture size is 4096. -/
def sampleEnv : Env where
  isPixelFormatCompressed := fun _ => false
  isPixelFormatDepthStencil := fun _ => false
  getPixelFormatSliceSize := fun _ w h => 4 * w * h
  convertPixelFormat := fun _ _ _ => ⟨0x8058, 0x1908, 0x1401, [0x8CE0, GL_NONE]⟩
  hasTextureFilteringSupport := fun _ => true
  nextP2 := fun x => 2 ^ Nat.clog 2 x
  validateDimensions := fun t => decide (t.pixelWidth ≤ 4096 ∧ t.pixelHeight ≤ 4096)
  baseSamplerStateValid := fun _ _ => true
  graphicsModule := true

/-- A desktop driver that grants every request: complete framebuffers, 4
samples, no error. -/
def sampleDriver : Driver where
  GLAD_ES_VERSION_2_0 := false
  GLAD_ES_VERSION_3_0 := false
  GLAD_OES_texture_npot := false
  GLAD_ANGLE_texture_usage := false
  maxSamples := 4
  isDepthCompareSampleSupported := true
  generateMipmapsRequiresTexture2DEnable := false
  textureName := 1
  framebufferName := 2
  renderbufferName := 3
  tempFramebufferName := 4
  textureFramebufferStatus := GL_FRAMEBUFFER_COMPLETE
  renderbufferFramebufferStatus := GL_FRAMEBUFFER_COMPLETE
  renderbufferSamples := 4
  creationError := GL_NO_ERROR

/-- As `sampleDriver`, but the renderbuffer framebuffer is reported incomplete
(`GL_FRAMEBUFFER_INCOMPLETE_ATTACHMENT`). -/
def incompleteDriver : Driver :=
  { sampleDriver with renderbufferFramebufferStatus := 0x8CD6 }

/-- As `sampleDriver`, but a multisampled renderbuffer is granted 1 sample. -/
def singleSampleDriver : Driver :=
  { sampleDriver with renderbufferSamples := 1 }

/-- As `singleSampleDriver`, without depth-comparison sampling. -/
def noDepthCompareDriver : Driver :=
  { singleSampleDriver with isDepthCompareSampleSupported := false }

def sampleSampler : SamplerState where
  minFilter := FilterMode.FILTER_LINEAR
  magFilter := FilterMode.FILTER_LINEAR
  mipmapFilter := MipmapFilterMode.MIPMAP_FILTER_NONE
  wrapU := WrapMode.WRAP_CLAMP
  wrapV := WrapMode.WRAP_CLAMP
  wrapW := WrapMode.WRAP_CLAMP
  depthSampleMode := none

/-- A sampler state that requests depth-comparison sampling. -/
def depthSampler : SamplerState :=
  { sampleSampler with depthSampleMode := some 0 }

def emptySlices : Slices where
  get := fun _ _ => none
  getSliceCount := fun _ => 0
  getMipmapCount := 0

/-- An unloaded 2D texture of the given size with one mip level and no data. -/
def sampleTexture (width height : Nat) (renderTarget readable : Bool) (msaa : Nat) : Texture where
  texType := TextureType.TEXTURE_2D
  format := PixelFormat.PIXELFORMAT_RGBA8_UNORM
  renderTarget := renderTarget
  readable := readable
  mipmapsMode := MipmapsMode.MIPMAPS_NONE
  sRGB := false
  pixelWidth := width
  pixelHeight := height
  depth := 1
  layers := 1
  requestedMSAA := msaa
  mipmapCount := 1
  samplerState := sampleSampler
  graphicsMemorySize := 0
  slices := emptySlices
  fbo := 0
  texture := 0
  renderbuffer := 0
  framebufferStatus := GL_FRAMEBUFFER_COMPLETE
  actualSamples := 1
  usingDefaultTexture := false

def sampleGL : GLState := ⟨0, true, []⟩

def sampleWorld (width height : Nat) (renderTarget readable : Bool) (msaa : Nat) : World :=
  ⟨sampleTexture width height renderTarget readable msaa, sampleGL⟩

/-- A loaded texture: `sampleTexture` with a live texture handle. -/
def loadedWorld : World :=
  ⟨{ sampleTexture 4 4 true true 1 with texture := 7, fbo := 8 }, sampleGL⟩

/-! ## Upload, mipmap generation and sampler application -/

/-- C5: `uploadByteData` throws exactly when the pixel format is block-compressed
and the destination rectangle has `r.x != 0` or `r.y != 0`, and the exception
is then the origin error; so a compressed upload with origin (0,0) completes
for every texture type, level, slice and size, and an uncompressed upload
never fails on the origin. -/
theorem uploadByteData_origin_rule (env : Env) (pixelformat : PixelFormat) (data : List Nat)
    (size level slice : Nat) (r : Rect) (imgd : Option ImageDataBase) (w : World) :
    (uploadByteData env pixelformat data size level slice r imgd w).error =
      if env.isPixelFormatCompressed pixelformat = true ∧ (r.x ≠ 0 ∨ r.y ≠ 0) then
        some Exception.compressedOrigin
      else none := by
  unfold uploadByteData
  dsimp only
  split_ifs <;> simp_all [Outcome.ok, Outcome.throw]

/-- C6: `generateMipmaps` throws if and only if the mip count is not greater
than 1, or the mipmaps mode is none, or the pixel format is compressed (for a
texture with at least one mip level, where "not greater than 1" is the
source's `== 1`); when it throws nothing is issued to the driver (the state is
unchanged), and otherwise the calls it issues contain exactly one
`glGenerateMipmap`, for the texture's own type. -/
theorem generateMipmaps_gating (env : Env) (drv : Driver) (w : World) :
    (1 ≤ w.tex.mipmapCount →
      ((generateMipmaps env drv w).error ≠ none ↔
        (¬ 1 < w.tex.mipmapCount ∨ w.tex.mipmapsMode = MipmapsMode.MIPMAPS_NONE
          ∨ env.isPixelFormatCompressed w.tex.format = true)))
    ∧ ((generateMipmaps env drv w).error ≠ none → (generateMipmaps env drv w).world = w)
    ∧ ((generateMipmaps env drv w).error = none →
        ∃ added, (generateMipmaps env drv w).world.gl.log = w.gl.log ++ added
          ∧ added.filter Call.isGenerateMipmap = [Call.generateMipmap w.tex.texType]) := by
  unfold generateMipmaps
  by_cases h1 : w.tex.mipmapCount = 1 ∨ w.tex.mipmapsMode = MipmapsMode.MIPMAPS_NONE
  · have h1' : ¬ 1 < w.tex.mipmapCount ∨ w.tex.mipmapsMode = MipmapsMode.MIPMAPS_NONE
        ∨ env.isPixelFormatCompressed w.tex.format = true := by
      rcases h1 with h | h
      · exact Or.inl (by omega)
      · exact Or.inr (Or.inl h)
    simp only [h1, if_true, Outcome.throw]
    refine ⟨fun _ => ⟨fun _ => h1', fun _ => by simp⟩, fun _ => trivial, fun h => by simp at h⟩
  · have hn1 : ¬ w.tex.mipmapCount = 1 := fun h => h1 (Or.inl h)
    have hn2 : ¬ w.tex.mipmapsMode = MipmapsMode.MIPMAPS_NONE := fun h => h1 (Or.inr h)
    by_cases h2 : env.isPixelFormatCompressed w.tex.format = true
    · simp only [h1, h2, if_true, if_false, Outcome.throw]
      refine ⟨fun _ => ⟨fun _ => Or.inr (Or.inr trivial), fun _ => by simp⟩, fun _ => trivial,
        fun h => by simp at h⟩
    · simp only [h1, h2, if_false, Outcome.ok]
      refine ⟨fun hmip => ⟨fun h => absurd rfl h, ?_⟩, fun h => absurd rfl h, fun _ => ?_⟩
      · have hgt : 1 < w.tex.mipmapCount := by omega
        rintro (h | h | h)
        · exact absurd hgt h
        · exact absurd h hn2
        · exact absurd h (by simp [h2])
      · by_cases h3 : drv.generateMipmapsRequiresTexture2DEnable = true
        · refine ⟨[Call.bindTextureToUnit w.tex.texType w.tex.texture 0, Call.enable w.tex.texType,
            Call.generateMipmap w.tex.texType], ?_, ?_⟩
          · simp [h3, World.call, GLState.call]
          · simp [Call.isGenerateMipmap]
        · refine ⟨[Call.bindTextureToUnit w.tex.texType w.tex.texture 0,
            Call.generateMipmap w.tex.texType], ?_, ?_⟩
          · simp [h3, World.call, GLState.call]
          · simp [Call.isGenerateMipmap]

/-- A 2D texture declared with 4 mip levels, mipmaps enabled. -/
def mipmappedWorld : World :=
  ⟨{ sampleTexture 8 8 false true 1 with
      mipmapsMode := MipmapsMode.enabled 1, mipmapCount := 4, texture := 7 }, sampleGL⟩

/-- A 2D texture with one mip level and a live handle. -/
def singleLevelWorld : World :=
  ⟨{ sampleTexture 8 8 false true 1 with mipmapsMode := MipmapsMode.enabled 1, texture := 7 }, sampleGL⟩

/-- Witness for C6: with 4 mip levels and mipmaps enabled the call succeeds and
issues one `glGenerateMipmap`; with one mip level it throws and changes
nothing. -/
theorem generateMipmaps_gating_witness :
    1 ≤ mipmappedWorld.tex.mipmapCount
    ∧ (generateMipmaps sampleEnv sampleDriver mipmappedWorld).error = none
    ∧ (∃ added, (generateMipmaps sampleEnv sampleDriver mipmappedWorld).world.gl.log
            = mipmappedWorld.gl.log ++ added
          ∧ added.filter Call.isGenerateMipmap
            = [Call.generateMipmap mipmappedWorld.tex.texType])
    ∧ 1 ≤ singleLevelWorld.tex.mipmapCount
    ∧ (generateMipmaps sampleEnv sampleDriver singleLevelWorld).error ≠ none
    ∧ (generateMipmaps sampleEnv sampleDriver singleLevelWorld).world = singleLevelWorld :=
  ⟨by decide, by decide,
    (generateMipmaps_gating sampleEnv sampleDriver mipmappedWorld).2.2 (by decide),
    by decide,
    ((generateMipmaps_gating sampleEnv sampleDriver singleLevelWorld).1 (by decide)).2
      (Or.inl (by decide)),
    (generateMipmaps_gating sampleEnv sampleDriver singleLevelWorld).2.1 (by decide)⟩

/-- C9 (what the code does at the failing input): the texture's current sampler
state has no depth-comparison mode, the requested state `depthSampler` has
one, and the driver does not support depth-compare sampling; yet
`setSamplerState` throws nothing, pushes the requested state to the driver and
stores it. The next call, which requests no depth comparison, is the one that
throws. -/
theorem setSamplerState_accepts_unsupported_depth_compare :
    depthSampler.depthSampleMode.isSome = true
    ∧ noDepthCompareDriver.isDepthCompareSampleSupported = false
    ∧ loadedWorld.tex.samplerState.depthSampleMode = none
    ∧ (setSamplerState sampleEnv noDepthCompareDriver depthSampler loadedWorld).error = none
    ∧ Call.setSamplerState TextureType.TEXTURE_2D depthSampler
        ∈ (setSamplerState sampleEnv noDepthCompareDriver depthSampler loadedWorld).world.gl.log
    ∧ (setSamplerState sampleEnv noDepthCompareDriver depthSampler loadedWorld).world.tex.samplerState
        = depthSampler
    ∧ sampleSampler.depthSampleMode = none
    ∧ (setSamplerState sampleEnv noDepthCompareDriver sampleSampler
        (setSamplerState sampleEnv noDepthCompareDriver depthSampler loadedWorld).world).error
        = some Exception.depthCompareUnsupported := by
  decide

/-- The depth-comparison test of `setSamplerState` looks at the texture's
current sampler state and never at the requested state `s`. -/
theorem setSamplerState_depth_test (env : Env) (drv : Driver) (s : SamplerState) (w : World) :
    (setSamplerState env drv s w).error = some Exception.depthCompareUnsupported ↔
      (w.tex.samplerState.depthSampleMode.isSome = true ∧ drv.isDepthCompareSampleSupported = false) := by
  unfold setSamplerState
  by_cases h : w.tex.samplerState.depthSampleMode.isSome = true ∧ drv.isDepthCompareSampleSupported = false
  · simp only [h, and_self, if_true, Outcome.throw]
  · simp only [h, if_false, iff_false]
    unfold baseSetSamplerState Outcome.andThen
    split_ifs <;> simp [Outcome.ok, Outcome.throw]

/-! ## Idempotence of the lifecycle -/

/-- C8: `loadVolatile` on a resource whose texture or renderbuffer handle is
non-zero returns success and leaves the whole state (every field of the
resource, the driver state and the call log) unchanged; `unloadVolatile`
applied twice gives the same state as applied once, so the second call issues
no call at all: no handle release and no render-target cache notification. -/
theorem lifecycle_idempotent (env : Env) (drv : Driver) (w : World) :
    ((w.tex.texture ≠ 0 ∨ w.tex.renderbuffer ≠ 0) → loadVolatile env drv w = Outcome.ok w)
    ∧ unloadVolatile env (unloadVolatile env w) = unloadVolatile env w
    ∧ (unloadVolatile env (unloadVolatile env w)).gl.log = (unloadVolatile env w).gl.log := by
  have hu : unloadVolatile env (unloadVolatile env w) = unloadVolatile env w := by
    simp [unloadVolatile, setGraphicsMemorySize]
  refine ⟨fun h => ?_, hu, by rw [hu]⟩
  unfold loadVolatile
  rw [if_pos h]

/-- Witness for C8: a loaded render target with texture handle 7; its second
unload adds nothing to the three calls of the first. -/
theorem lifecycle_idempotent_witness :
    (loadedWorld.tex.texture ≠ 0 ∨ loadedWorld.tex.renderbuffer ≠ 0)
    ∧ loadVolatile sampleEnv sampleDriver loadedWorld = Outcome.ok loadedWorld
    ∧ (unloadVolatile sampleEnv loadedWorld).gl.log
        = [Call.cleanupRenderTexture, Call.deleteFramebuffer 8, Call.deleteTexture 7]
    ∧ (unloadVolatile sampleEnv (unloadVolatile sampleEnv loadedWorld)).gl.log
        = [Call.cleanupRenderTexture, Call.deleteFramebuffer 8, Call.deleteTexture 7] :=
  ⟨Or.inl (by decide),
    (lifecycle_idempotent sampleEnv sampleDriver loadedWorld).1 (Or.inl (by decide)),
    by decide,
    ((lifecycle_idempotent sampleEnv sampleDriver loadedWorld).2.2).trans (by decide)⟩

/-! ## Evaluations at explicit inputs -/

/-- C2 (what the code does at the failing input): a readable texture that is
not a render target and whose width 100000 exceeds the maximum is rejected by
`validateDimensions`; `createTexture` substitutes the default texture and sets
`usingDefaultTexture`, `loadVolatile` succeeds, and once it has returned
`usingDefaultTexture` is false again (source line 393). -/
theorem loadVolatile_clears_default_texture_flag :
    sampleEnv.validateDimensions (sampleWorld 100000 4 false true 1).tex.toTextureBase = false
    ∧ (createTexture sampleEnv sampleDriver (sampleWorld 100000 4 false true 1)).world.tex.usingDefaultTexture = true
    ∧ (loadVolatile sampleEnv sampleDriver (sampleWorld 100000 4 false true 1)).error = none
    ∧ (loadVolatile sampleEnv sampleDriver (sampleWorld 100000 4 false true 1)).world.tex.usingDefaultTexture = false := by
  decide

/-- Every run of `loadVolatile` that performs the load and succeeds ends with
`usingDefaultTexture` false, whatever `createTexture` set. -/
theorem loadVolatile_default_flag_false (env : Env) (drv : Driver) (w : World)
    (h0 : w.tex.texture = 0 ∧ w.tex.renderbuffer = 0)
    (hs : (loadVolatile env drv w).error = none) :
    (loadVolatile env drv w).world.tex.usingDefaultTexture = false := by
  unfold loadVolatile at hs ⊢
  have hn : ¬ (w.tex.texture ≠ 0 ∨ w.tex.renderbuffer ≠ 0) := by simp [h0.1, h0.2]
  rw [if_neg hn] at hs ⊢
  generalize createResources env drv (beginLoad env drv w) = o at hs ⊢
  obtain ⟨ow, oe⟩ := o
  cases oe with
  | some e => simp [Outcome.throw] at hs
  | none => rfl

/-- C3 (what the code does at the failing input): for a readable 4x4 texture
with one mip level, no source data and a format of 4 bytes per pixel,
`getPixelFormatSliceSize(format, 4, 4)` is 64 bytes, yet the only upload that
`createTexture` issues is 16 zero bytes to the rectangle (0, 0, 2, 2) of level
0: `w` and `h` were halved by the mip loop before the blank buffer was sized. -/
theorem createTexture_blank_upload_is_halved :
    sampleEnv.getPixelFormatSliceSize PixelFormat.PIXELFORMAT_RGBA8_UNORM 4 4 = 64
    ∧ (createTexture sampleEnv sampleDriver (sampleWorld 4 4 false true 1)).error = none
    ∧ (createTexture sampleEnv sampleDriver (sampleWorld 4 4 false true 1)).world.gl.log =
        [Call.genTextures 1,
         Call.bindTextureToUnit TextureType.TEXTURE_2D 1 0,
         Call.bindTextureToUnit TextureType.TEXTURE_2D 1 0,
         Call.setSamplerState TextureType.TEXTURE_2D sampleSampler,
         Call.rawTexStorage TextureType.TEXTURE_2D 1 PixelFormat.PIXELFORMAT_RGBA8_UNORM false 4 4 1,
         Call.bindTextureToUnit TextureType.TEXTURE_2D 1 0,
         Call.texSubImage2D (GLTarget.ofType TextureType.TEXTURE_2D) 0 0 0 2 2 0x1908 0x1401
           (List.replicate 16 0)] := by
  decide

/-- The mip chain sum `S` of the footprint property: over the mip levels, slice
count of the level times bytes per slice of the level. -/
def mipChainSize (env : Env) (t : Texture) : Nat :=
  ((List.range t.mipmapCount).map fun mip =>
    (getDepth t mip * t.layers * faceCount t.texType)
      * env.getPixelFormatSliceSize t.format (getPixelWidth t mip) (getPixelHeight t mip)).sum

/-- C4 (counterexample): a readable 2x2 render target with 4 granted samples
loads successfully with `actualSamples = 4`; the mip chain takes 16 bytes, and
the footprint reported is 80 bytes, not 16 * 4. No quantity is anywhere near
the limits of its integer type. -/
theorem loadVolatile_footprint_counterexample :
    (loadVolatile sampleEnv sampleDriver (sampleWorld 2 2 true true 4)).error = none
    ∧ (loadVolatile sampleEnv sampleDriver (sampleWorld 2 2 true true 4)).world.tex.actualSamples = 4
    ∧ mipChainSize sampleEnv (loadVolatile sampleEnv sampleDriver (sampleWorld 2 2 true true 4)).world.tex = 16
    ∧ (loadVolatile sampleEnv sampleDriver (sampleWorld 2 2 true true 4)).world.tex.graphicsMemorySize = 80
    ∧ ¬ ((loadVolatile sampleEnv sampleDriver (sampleWorld 2 2 true true 4)).world.tex.graphicsMemorySize
        = ((mipChainSize sampleEnv
              (loadVolatile sampleEnv sampleDriver (sampleWorld 2 2 true true 4)).world.tex
            * (loadVolatile sampleEnv sampleDriver (sampleWorld 2 2 true true 4)).world.tex.actualSamples
            : Nat) : Int)) := by
  decide

/-- C1 (counterexample): a render target that is not readable, on a driver
that reports the renderbuffer framebuffer incomplete and raises no error:
`loadVolatile` returns successfully with the texture handle and the
renderbuffer handle both zero. -/
theorem loadVolatile_handle_counterexample :
    (sampleWorld 2 2 true false 1).tex.readable = false
    ∧ incompleteDriver.creationError = GL_NO_ERROR
    ∧ incompleteDriver.renderbufferName ≠ 0
    ∧ (loadVolatile sampleEnv incompleteDriver (sampleWorld 2 2 true false 1)).error = none
    ∧ ¬ ((loadVolatile sampleEnv incompleteDriver (sampleWorld 2 2 true false 1)).world.tex.texture ≠ 0
        ∨ (loadVolatile sampleEnv incompleteDriver (sampleWorld 2 2 true false 1)).world.tex.renderbuffer ≠ 0) := by
  decide

/-- Collaborators for a depth format: 4 bytes per pixel, depth attachment
(`GL_DEPTH_ATTACHMENT`) only. -/
def depthEnv : Env :=
  { sampleEnv with
    isPixelFormatDepthStencil := fun _ => true
    convertPixelFormat := fun _ _ _ => ⟨0x81A6, 0x1902, 0x1405, [0x8D00, GL_NONE]⟩ }

/-- A readable depth render target requesting 4 samples whose stored sampler
state asks for depth-comparison sampling. -/
def depthSampledWorld : World :=
  ⟨{ sampleTexture 2 2 true true 4 with
      format := PixelFormat.other 0, samplerState := depthSampler }, sampleGL⟩

/-- C7 (counterexample): 4 samples requested, driver maximum 4, 1 sample
granted, driver error flag clear; the texture path throws (depth-comparison
sampling is not supported), so `loadVolatile` fails and `actualSamples` is
left at 4. -/
theorem loadVolatile_fallback_counterexample :
    depthSampledWorld.tex.requestedMSAA = 4
    ∧ noDepthCompareDriver.maxSamples = 4
    ∧ noDepthCompareDriver.renderbufferSamples = 1
    ∧ noDepthCompareDriver.creationError = GL_NO_ERROR
    ∧ (loadVolatile depthEnv noDepthCompareDriver depthSampledWorld).error
        = some Exception.depthCompareUnsupported
    ∧ (loadVolatile depthEnv noDepthCompareDriver depthSampledWorld).world.tex.actualSamples = 4 := by
  decide

/-- Attachment coverage over the whole mip chain, as the specification words
it: every mip level below `mipCount` of every layer and face is attached at
every role that is not `GL_NONE`. -/
def AttachesEveryLevel (env : Env) (drv : Driver) (texType : TextureType) (format : PixelFormat)
    (texture : GLuint) (layers mipCount : Nat) (clear : Bool) (gl : GLState) : Prop :=
  ∀ mip, mip < mipCount → ∀ layer, layer < layers → ∀ face, face < faceCount texType →
    ∀ attachment, attachment ∈ (env.convertPixelFormat format false false).framebufferAttachments →
      attachment ≠ GL_NONE →
      Call.framebufferTexture attachment texType texture mip layer face
        ∈ (createFBO env drv texType format texture layers clear gl).1.log

/-- C10 (counterexample): for a 2D texture with 2 mip levels and one layer,
`createFBO` never attaches mip level 1. -/
theorem createFBO_level_counterexample :
    ¬ AttachesEveryLevel sampleEnv sampleDriver TextureType.TEXTURE_2D
        PixelFormat.PIXELFORMAT_RGBA8_UNORM 7 1 2 true sampleGL := by
  intro h
  have h1 := h 1 (by decide) 0 (by decide) 0 (by decide) 0x8CE0 (by decide) (by decide)
  revert h1
  decide

/-! ## Memory footprint -/

theorem toInt32_of_lt (n : Nat) (h : n < 2 ^ 31) : toInt32 (n : Int) = n := by
  unfold toInt32
  omega

theorem toInt64_of_lt (n : Nat) (h : n < 2 ^ 63) : toInt64 (n : Int) = n := by
  unfold toInt64
  omega

theorem toSizeT_natCast (n : Nat) : toSizeT (n : Int) = n % 2 ^ 64 := by
  unfold toSizeT
  omega

theorem sizeMul_mod (a b : Nat) : sizeMul (a % 2 ^ 64) (b % 2 ^ 64) = (a * b) % 2 ^ 64 := by
  unfold sizeMul
  exact (Nat.mul_mod a b (2 ^ 64)).symm

/-- The `size_t` product of a slice size and an `int` slice count that fits
its type, when the exact product fits 64 bits. -/
theorem sizeMul_slices (sz a b c : Nat) (hint : a * b * c < 2 ^ 31)
    (hfit : sz * (a * b * c) < 2 ^ 64) :
    sizeMul (asSizeT sz) (toSizeT (toInt32 ((a : Int) * (b : Int) * (c : Int))))
      = sz * (a * b * c) := by
  have hcast : ((a : Int) * (b : Int) * (c : Int)) = ((a * b * c : Nat) : Int) := by
    push_cast
    rfl
  rw [hcast, toInt32_of_lt _ hint, toSizeT_natCast, asSizeT, sizeMul_mod, Nat.mod_eq_of_lt hfit]

/-- Exact size in bytes of one mip level over all its slices. -/
def levelSize (env : Env) (t : Texture) (mip : Nat) : Nat :=
  (getDepth t mip * t.layers * faceCount t.texType)
    * env.getPixelFormatSliceSize t.format (getPixelWidth t mip) (getPixelHeight t mip)

theorem mipChainSize_eq (env : Env) (t : Texture) :
    mipChainSize env t = ((List.range t.mipmapCount).map (levelSize env t)).sum := rfl

/-- One iteration of the loop adds the exact level size when the slice count
fits an `int` and the new total fits an `int64`. -/
theorem accumulateLevel_eq (env : Env) (t : Texture) (a mip : Nat)
    (hint : getDepth t mip * t.layers * faceCount t.texType < 2 ^ 31)
    (hfit : a + levelSize env t mip < 2 ^ 63) :
    accumulateLevel env t (a : Int) mip = ((a + levelSize env t mip : Nat) : Int) := by
  have hcomm : env.getPixelFormatSliceSize t.format (getPixelWidth t mip) (getPixelHeight t mip)
      * (getDepth t mip * t.layers * faceCount t.texType) = levelSize env t mip := by
    unfold levelSize
    exact Nat.mul_comm _ _
  have h64 : env.getPixelFormatSliceSize t.format (getPixelWidth t mip) (getPixelHeight t mip)
      * (getDepth t mip * t.layers * faceCount t.texType) < 2 ^ 64 := by
    rw [hcomm]
    omega
  unfold accumulateLevel
  dsimp only
  rw [sizeMul_slices _ _ _ _ hint h64, hcomm, ← Nat.cast_add]
  exact toInt64_of_lt _ hfit

/-- The loop adds up the exact level sizes when every slice count fits an
`int` and the total fits an `int64`. -/
theorem accumulateLevels_eq (env : Env) (t : Texture) :
    ∀ (l : List Nat) (a : Nat),
      (∀ mip ∈ l, getDepth t mip * t.layers * faceCount t.texType < 2 ^ 31) →
      a + (l.map (levelSize env t)).sum < 2 ^ 63 →
      l.foldl (accumulateLevel env t) (a : Int) = ((a + (l.map (levelSize env t)).sum : Nat) : Int)
  | [], a, _, _ => by simp
  | mip :: rest, a, hint, hfit => by
    have hfit' : a + levelSize env t mip + (rest.map (levelSize env t)).sum < 2 ^ 63 := by
      simpa [Nat.add_assoc] using hfit
    have hstep : a + levelSize env t mip < 2 ^ 63 := by omega
    rw [List.foldl_cons, accumulateLevel_eq env t a mip (hint mip (List.mem_cons_self _ _)) hstep,
      accumulateLevels_eq env t rest (a + levelSize env t mip)
        (fun m hm => hint m (List.mem_cons_of_mem _ hm)) hfit']
    simp [Nat.add_assoc]

/-- The exact footprint in bytes: the mip chain sum `S`, with the sample count
entering in one of two ways. -/
def footprint (env : Env) (t : Texture) : Nat :=
  if t.actualSamples > 1 ∧ t.readable = true then
    mipChainSize env t
      + env.getPixelFormatSliceSize t.format t.pixelWidth t.pixelHeight
          * (t.depth * t.layers * faceCount t.texType) * t.actualSamples
  else if t.actualSamples > 1 then mipChainSize env t * t.actualSamples
  else mipChainSize env t

/-- No quantity of the footprint computation leaves its integer type: every
`int` slice count is below 2^31 and the exact footprint is below 2^63. -/
def FootprintInRange (env : Env) (t : Texture) : Prop :=
  (∀ mip, mip < t.mipmapCount → getDepth t mip * t.layers * faceCount t.texType < 2 ^ 31)
  ∧ (t.actualSamples > 1 ∧ t.readable = true →
      t.depth * t.layers * faceCount t.texType < 2 ^ 31)
  ∧ footprint env t < 2 ^ 63

/-- Within range, the machine computation gives the exact footprint. -/
theorem computeMemorySize_eq (env : Env) (t : Texture) (hr : FootprintInRange env t) :
    computeMemorySize env t = (footprint env t : Int) := by
  obtain ⟨hint, hbase, hfit⟩ := hr
  have hloop : mipChainSize env t < 2 ^ 63 →
      (List.range t.mipmapCount).foldl (accumulateLevel env t) 0 = (mipChainSize env t : Int) := by
    intro hS
    have h := accumulateLevels_eq env t (List.range t.mipmapCount) 0
      (fun mip hm => hint mip (List.mem_range.1 hm))
      (by rw [Nat.zero_add, ← mipChainSize_eq]; exact hS)
    rw [Nat.zero_add, ← mipChainSize_eq] at h
    exact_mod_cast h
  unfold computeMemorySize
  unfold footprint at hfit ⊢
  dsimp only
  by_cases h1 : t.actualSamples > 1 ∧ t.readable = true
  · rw [if_pos h1] at hfit ⊢
    rw [if_pos h1]
    have hS : mipChainSize env t < 2 ^ 63 := by omega
    have hprod : env.getPixelFormatSliceSize t.format t.pixelWidth t.pixelHeight
        * (t.depth * t.layers * faceCount t.texType) * t.actualSamples < 2 ^ 63 := by omega
    have hge : env.getPixelFormatSliceSize t.format t.pixelWidth t.pixelHeight
        * (t.depth * t.layers * faceCount t.texType)
        ≤ env.getPixelFormatSliceSize t.format t.pixelWidth t.pixelHeight
          * (t.depth * t.layers * faceCount t.texType) * t.actualSamples :=
      Nat.le_mul_of_pos_right _ (by omega)
    have h64 : env.getPixelFormatSliceSize t.format t.pixelWidth t.pixelHeight
        * (t.depth * t.layers * faceCount t.texType) < 2 ^ 64 := by omega
    have hmul : sizeMul
        (env.getPixelFormatSliceSize t.format t.pixelWidth t.pixelHeight
          * (t.depth * t.layers * faceCount t.texType))
        (toSizeT (t.actualSamples : Int))
        = env.getPixelFormatSliceSize t.format t.pixelWidth t.pixelHeight
          * (t.depth * t.layers * faceCount t.texType) * t.actualSamples := by
      rw [toSizeT_natCast]
      unfold sizeMul
      rw [Nat.mul_mod, Nat.mod_mod, ← Nat.mul_mod]
      exact Nat.mod_eq_of_lt (by omega)
    rw [hloop hS, sizeMul_slices _ _ _ _ (hbase h1) h64, hmul, ← Nat.cast_add]
    exact toInt64_of_lt _ hfit
  · rw [if_neg h1] at hfit ⊢
    rw [if_neg h1]
    by_cases h2 : t.actualSamples > 1
    · rw [if_pos h2] at hfit ⊢
      rw [if_pos h2]
      have hS : mipChainSize env t < 2 ^ 63 := by
        have : mipChainSize env t ≤ mipChainSize env t * t.actualSamples :=
          Nat.le_mul_of_pos_right _ (by omega)
        omega
      rw [hloop hS, ← Nat.cast_mul]
      exact toInt64_of_lt _ hfit
    · rw [if_neg h2] at hfit ⊢
      rw [if_neg h2]
      exact hloop hfit

/-- A readable texture that is not a render target, declared 2147483647 x
2147483647 with one mip level; its size is not checked before the load. -/
def hugeTexture : Texture := sampleTexture 2147483647 2147483647 false true 1

/-- Outside the range the `int64` wraps: for the huge texture at 4 bytes per
pixel the exact footprint is 2^64 - 2^34 + 4 bytes and the computed value is
negative. -/
theorem computeMemorySize_wraps :
    footprint sampleEnv hugeTexture = 18446744056529682436
    ∧ computeMemorySize sampleEnv hugeTexture = -17179869180
    ∧ (loadVolatile sampleEnv sampleDriver ⟨hugeTexture, sampleGL⟩).error = none
    ∧ (loadVolatile sampleEnv sampleDriver ⟨hugeTexture, sampleGL⟩).world.tex.graphicsMemorySize
        = -17179869180 := by
  decide

/-- After a load that ran and succeeded, the state is the one left by
`createResources` with the footprint stored and the default-texture flag
cleared. -/
theorem loadVolatile_success_shape (env : Env) (drv : Driver) (w : World)
    (h0 : w.tex.texture = 0 ∧ w.tex.renderbuffer = 0)
    (hs : (loadVolatile env drv w).error = none) :
    ∃ v : World,
      createResources env drv (beginLoad env drv w) = Outcome.ok v
      ∧ (loadVolatile env drv w).world =
          { v with tex := { v.tex with graphicsMemorySize := computeMemorySize env v.tex,
                                       usingDefaultTexture := false } } := by
  unfold loadVolatile at hs ⊢
  have hn : ¬ (w.tex.texture ≠ 0 ∨ w.tex.renderbuffer ≠ 0) := by simp [h0.1, h0.2]
  rw [if_neg hn] at hs ⊢
  generalize createResources env drv (beginLoad env drv w) = o at hs ⊢
  obtain ⟨ow, oe⟩ := o
  cases oe with
  | some e => simp [Outcome.throw] at hs
  | none => exact ⟨ow, rfl, rfl⟩

/-- C4 (amended): after a `loadVolatile` that performed the load and succeeded,
and when no quantity of the computation leaves its integer type (`int` slice
counts below 2^31, exact footprint below 2^63), the reported footprint is the
mip chain sum `S` when `actualSamples <= 1`; it is `S * actualSamples` when
`actualSamples > 1` and the resource is not readable; and when
`actualSamples > 1` and the resource is readable it is `S` plus the base level
size (all slices) times `actualSamples`. -/
theorem loadVolatile_footprint (env : Env) (drv : Driver) (w : World)
    (h0 : w.tex.texture = 0 ∧ w.tex.renderbuffer = 0)
    (hs : (loadVolatile env drv w).error = none)
    (hrange : FootprintInRange env (loadVolatile env drv w).world.tex) :
    ((loadVolatile env drv w).world.tex.actualSamples ≤ 1 →
      (loadVolatile env drv w).world.tex.graphicsMemorySize
        = ((mipChainSize env (loadVolatile env drv w).world.tex : Nat) : Int))
    ∧ (1 < (loadVolatile env drv w).world.tex.actualSamples →
        (loadVolatile env drv w).world.tex.readable = false →
        (loadVolatile env drv w).world.tex.graphicsMemorySize
          = ((mipChainSize env (loadVolatile env drv w).world.tex
              * (loadVolatile env drv w).world.tex.actualSamples : Nat) : Int))
    ∧ (1 < (loadVolatile env drv w).world.tex.actualSamples →
        (loadVolatile env drv w).world.tex.readable = true →
        (loadVolatile env drv w).world.tex.graphicsMemorySize
          = ((mipChainSize env (loadVolatile env drv w).world.tex
              + env.getPixelFormatSliceSize (loadVolatile env drv w).world.tex.format
                    (loadVolatile env drv w).world.tex.pixelWidth
                    (loadVolatile env drv w).world.tex.pixelHeight
                  * ((loadVolatile env drv w).world.tex.depth * (loadVolatile env drv w).world.tex.layers
                      * faceCount (loadVolatile env drv w).world.tex.texType)
                  * (loadVolatile env drv w).world.tex.actualSamples : Nat) : Int)) := by
  obtain ⟨v, _, hv⟩ := loadVolatile_success_shape env drv w h0 hs
  rw [hv] at hrange ⊢
  have hrange' : FootprintInRange env v.tex := hrange
  have hmem := computeMemorySize_eq env v.tex hrange'
  refine ⟨fun h => ?_, fun h hr => ?_, fun h hr => ?_⟩
  · show computeMemorySize env v.tex = ((mipChainSize env v.tex : Nat) : Int)
    have h' : v.tex.actualSamples ≤ 1 := h
    have h1 : ¬ v.tex.actualSamples > 1 := by omega
    have h2 : ¬ (v.tex.actualSamples > 1 ∧ v.tex.readable = true) := fun hh => h1 hh.1
    rw [hmem, footprint, if_neg h2, if_neg h1]
  · show computeMemorySize env v.tex
      = ((mipChainSize env v.tex * v.tex.actualSamples : Nat) : Int)
    have h' : 1 < v.tex.actualSamples := h
    have hr' : v.tex.readable = false := hr
    have h2 : ¬ (v.tex.actualSamples > 1 ∧ v.tex.readable = true) := by simp [hr']
    rw [hmem, footprint, if_neg h2, if_pos h']
  · show computeMemorySize env v.tex = ((mipChainSize env v.tex
      + env.getPixelFormatSliceSize v.tex.format v.tex.pixelWidth v.tex.pixelHeight
          * (v.tex.depth * v.tex.layers * faceCount v.tex.texType) * v.tex.actualSamples : Nat) : Int)
    have h' : 1 < v.tex.actualSamples := h
    have hr' : v.tex.readable = true := hr
    rw [hmem, footprint, if_pos ⟨h', hr'⟩]

/-- Witness for C4: the readable 2x2 render target with 4 granted samples is
within range and reports 16 + 16 * 4 bytes. -/
theorem loadVolatile_footprint_witness :
    ((sampleWorld 2 2 true true 4).tex.texture = 0 ∧ (sampleWorld 2 2 true true 4).tex.renderbuffer = 0)
    ∧ (loadVolatile sampleEnv sampleDriver (sampleWorld 2 2 true true 4)).error = none
    ∧ FootprintInRange sampleEnv (loadVolatile sampleEnv sampleDriver (sampleWorld 2 2 true true 4)).world.tex
    ∧ 1 < (loadVolatile sampleEnv sampleDriver (sampleWorld 2 2 true true 4)).world.tex.actualSamples
    ∧ (loadVolatile sampleEnv sampleDriver (sampleWorld 2 2 true true 4)).world.tex.readable = true
    ∧ (loadVolatile sampleEnv sampleDriver (sampleWorld 2 2 true true 4)).world.tex.graphicsMemorySize
        = 16 + 16 * 4 :=
  ⟨⟨by decide, by decide⟩, by decide, ⟨by decide, by decide, by decide⟩, by decide, by decide,
    ((loadVolatile_footprint sampleEnv sampleDriver (sampleWorld 2 2 true true 4)
      ⟨by decide, by decide⟩ (by decide) ⟨by decide, by decide, by decide⟩).2.2
        (by decide) (by decide)).trans (by decide)⟩

/-! ## Framebuffer builder: the calls it issues -/

/-- Driver state after issuing further calls that change neither the bound
framebuffer nor the depth mask. -/
def GLState.append (g : GLState) (cs : List Call) : GLState :=
  { g with log := g.log ++ cs }

@[simp] theorem GLState.append_log (g : GLState) (cs : List Call) :
    (g.append cs).log = g.log ++ cs := rfl

@[simp] theorem GLState.append_depthWrites (g : GLState) (cs : List Call) :
    (g.append cs).depthWrites = g.depthWrites := rfl

@[simp] theorem GLState.append_framebuffer (g : GLState) (cs : List Call) :
    (g.append cs).framebuffer = g.framebuffer := rfl

@[simp] theorem GLState.append_append (g : GLState) (cs ds : List Call) :
    (g.append cs).append ds = g.append (cs ++ ds) := by
  simp [GLState.append]

@[simp] theorem GLState.append_nil (g : GLState) : g.append [] = g := by
  simp [GLState.append]

theorem GLState.call_eq_append (g : GLState) (c : Call) : g.call c = g.append [c] := rfl

/-- The attachment calls for one (layer, face): level 0 at every role of the
format that is not `GL_NONE`. -/
def attachCalls (fmt : TextureFormat) (texType : TextureType) (texture : GLuint)
    (layer face : Nat) : List Call :=
  (fmt.framebufferAttachments.filter fun a => decide (a ≠ GL_NONE)).map
    fun a => Call.framebufferTexture a texType texture 0 layer face

/-- The clear of the bound framebuffer to the deterministic values: depth 1.0
and stencil 0 for a depth-stencil format (with the depth mask switched on
around it when it was off), transparent black otherwise. -/
def clearCalls (env : Env) (format : PixelFormat) (depthWrites : Bool) : List Call :=
  if env.isPixelFormatDepthStencil format = true then
    (if depthWrites = false then [Call.setDepthWrites true] else [])
      ++ [Call.clearDepth 1, Call.clearStencil 0, Call.clear true true false]
      ++ (if depthWrites = false then [Call.setDepthWrites false] else [])
  else [Call.clearColor 0 0 0 0, Call.clear false false true]

/-- Calls of `disableColorBuffers`. -/
def disableColorBuffersCalls (env : Env) (drv : Driver) (format : PixelFormat) : List Call :=
  if env.isPixelFormatDepthStencil format = true
      ∧ (drv.GLAD_ES_VERSION_3_0 = true ∨ drv.GLAD_ES_VERSION_2_0 = false) then
    [if drv.GLAD_ES_VERSION_3_0 = true then Call.drawBuffers GL_NONE else Call.drawBuffer GL_NONE,
     Call.readBuffer GL_NONE]
  else []

/-- Calls issued for one (layer, face) by `attachAndClear`. -/
def blockCalls (env : Env) (fmt : TextureFormat) (texType : TextureType) (format : PixelFormat)
    (texture : GLuint) (clear depthWrites : Bool) (layer face : Nat) : List Call :=
  attachCalls fmt texType texture layer face
    ++ (if clear = true then clearCalls env format depthWrites else [])

theorem clearAttachments_eq (env : Env) (format : PixelFormat) (g : GLState) :
    clearAttachments env format g = g.append (clearCalls env format g.depthWrites) := by
  obtain ⟨fb, dw, log⟩ := g
  unfold clearAttachments clearCalls
  by_cases hds : env.isPixelFormatDepthStencil format = true
  · cases dw <;> simp [hds, GLState.call, GLState.setDepthWrites, GLState.append]
  · simp [hds, GLState.call, GLState.append]

theorem disableColorBuffers_eq (env : Env) (drv : Driver) (format : PixelFormat) (g : GLState) :
    disableColorBuffers env drv format g = g.append (disableColorBuffersCalls env drv format) := by
  unfold disableColorBuffers disableColorBuffersCalls
  split_ifs <;> simp_all [GLState.call, GLState.append]

theorem attachLoop_eq (texType : TextureType) (texture : GLuint) (layer face : Nat)
    (atts : List GLenum) (g : GLState) :
    atts.foldl (fun g attachment =>
        if attachment = GL_NONE then g
        else g.call (Call.framebufferTexture attachment texType texture 0 layer face)) g
      = g.append ((atts.filter fun a => decide (a ≠ GL_NONE)).map
          fun a => Call.framebufferTexture a texType texture 0 layer face) := by
  induction atts generalizing g with
  | nil => simp
  | cons a rest ih =>
    rw [List.foldl_cons]
    by_cases ha : a = GL_NONE
    · rw [if_pos ha, ih]
      simp [ha]
    · rw [if_neg ha, ih]
      simp [ha, GLState.call_eq_append]

theorem attachAndClear_eq (env : Env) (fmt : TextureFormat) (texType : TextureType)
    (format : PixelFormat) (texture : GLuint) (clear : Bool) (layer face : Nat) (g : GLState) :
    attachAndClear env fmt texType format texture clear layer face g
      = g.append (blockCalls env fmt texType format texture clear g.depthWrites layer face) := by
  unfold attachAndClear blockCalls attachCalls
  simp only [attachLoop_eq]
  cases clear <;> simp [clearAttachments_eq]

theorem faceLoop_eq (env : Env) (fmt : TextureFormat) (texType : TextureType)
    (format : PixelFormat) (texture : GLuint) (clear : Bool) (layer : Nat)
    (faces : List Nat) (g : GLState) :
    faces.foldl (fun g face => attachAndClear env fmt texType format texture clear layer face g) g
      = g.append (faces.flatMap
          fun face => blockCalls env fmt texType format texture clear g.depthWrites layer face) := by
  induction faces generalizing g with
  | nil => simp
  | cons f rest ih =>
    rw [List.foldl_cons, ih, attachAndClear_eq]
    simp

theorem layerLoop_eq (env : Env) (fmt : TextureFormat) (texType : TextureType)
    (format : PixelFormat) (texture : GLuint) (clear : Bool) (faces : List Nat)
    (layers : List Nat) (g : GLState) :
    layers.foldl (fun g layer =>
        faces.foldl (fun g face => attachAndClear env fmt texType format texture clear layer face g) g) g
      = g.append (layers.flatMap fun layer => faces.flatMap
          fun face => blockCalls env fmt texType format texture clear g.depthWrites layer face) := by
  induction layers generalizing g with
  | nil => simp
  | cons l rest ih =>
    rw [List.foldl_cons, ih, faceLoop_eq]
    simp

/-- All calls of `createFBO`, in order. -/
def createFBOCalls (env : Env) (drv : Driver) (texType : TextureType) (format : PixelFormat)
    (texture : GLuint) (layers : Nat) (clear : Bool) (gl : GLState) : List Call :=
  [Call.genFramebuffers drv.framebufferName, Call.bindFramebuffer drv.framebufferName]
    ++ (if texture ≠ 0 then
          disableColorBuffersCalls env drv format
            ++ (List.range layers).reverse.flatMap fun layer =>
                (List.range (faceCount texType)).reverse.flatMap fun face =>
                  blockCalls env (env.convertPixelFormat format false false) texType format texture
                    clear gl.depthWrites layer face
        else [])
    ++ [Call.bindFramebuffer gl.framebuffer]

theorem createFBO_eq (env : Env) (drv : Driver) (texType : TextureType) (format : PixelFormat)
    (texture : GLuint) (layers : Nat) (clear : Bool) (gl : GLState) :
    createFBO env drv texType format texture layers clear gl
      = (gl.append (createFBOCalls env drv texType format texture layers clear gl),
          drv.framebufferName, drv.textureFramebufferStatus) := by
  obtain ⟨fb, dw, log⟩ := gl
  unfold createFBO createFBOCalls
  by_cases ht : texture = 0
  · simp [ht, GLState.call, GLState.bindFramebuffer, GLState.append]
  · have ht' : texture ≠ 0 := ht
    simp only [if_pos ht', layerLoop_eq, disableColorBuffers_eq]
    simp [GLState.call, GLState.bindFramebuffer, GLState.append]

/-- The calls `createFBO` can issue; an attachment call qualifies only at
mip level 0. -/
def Call.isFramebufferBuilderCall : Call → Bool
  | Call.genFramebuffers _ => true
  | Call.bindFramebuffer _ => true
  | Call.drawBuffers _ => true
  | Call.drawBuffer _ => true
  | Call.readBuffer _ => true
  | Call.setDepthWrites _ => true
  | Call.clearDepth _ => true
  | Call.clearStencil _ => true
  | Call.clearColor _ _ _ _ => true
  | Call.clear _ _ _ => true
  | Call.framebufferTexture _ _ _ level _ _ => decide (level = 0)
  | _ => false

theorem clearCalls_builder (env : Env) (format : PixelFormat) (dw : Bool) :
    ∀ c ∈ clearCalls env format dw, c.isFramebufferBuilderCall = true := by
  intro c hc
  unfold clearCalls at hc
  split_ifs at hc <;> simp at hc <;> casesm* _ ∨ _ <;> subst_vars <;> rfl

theorem disableColorBuffersCalls_builder (env : Env) (drv : Driver) (format : PixelFormat) :
    ∀ c ∈ disableColorBuffersCalls env drv format, c.isFramebufferBuilderCall = true := by
  intro c hc
  unfold disableColorBuffersCalls at hc
  split_ifs at hc <;> simp at hc <;> casesm* _ ∨ _ <;> subst_vars <;> rfl

theorem blockCalls_builder (env : Env) (fmt : TextureFormat) (texType : TextureType)
    (format : PixelFormat) (texture : GLuint) (clear dw : Bool) (layer face : Nat) :
    ∀ c ∈ blockCalls env fmt texType format texture clear dw layer face,
      c.isFramebufferBuilderCall = true := by
  intro c hc
  unfold blockCalls at hc
  rcases List.mem_append.1 hc with h | h
  · unfold attachCalls at h
    obtain ⟨a, _, rfl⟩ := List.mem_map.1 h
    simp [Call.isFramebufferBuilderCall]
  · cases clear
    · simp at h
    · exact clearCalls_builder env format dw c (by simpa using h)

theorem createFBOCalls_builder (env : Env) (drv : Driver) (texType : TextureType)
    (format : PixelFormat) (texture : GLuint) (layers : Nat) (clear : Bool) (gl : GLState) :
    ∀ c ∈ createFBOCalls env drv texType format texture layers clear gl,
      c.isFramebufferBuilderCall = true := by
  intro c hc
  unfold createFBOCalls at hc
  rcases List.mem_append.1 hc with h | h
  · rcases List.mem_append.1 h with h | h
    · simp at h
      rcases h with h | h <;> subst h <;> rfl
    · split_ifs at h
      · rcases List.mem_append.1 h with h | h
        · exact disableColorBuffersCalls_builder env drv format c h
        · obtain ⟨layer, _, h⟩ := List.mem_flatMap.1 h
          obtain ⟨face, _, h⟩ := List.mem_flatMap.1 h
          exact blockCalls_builder _ _ _ _ _ _ _ _ _ c h
      · simp at h
  · simp at h
    subst h
    rfl

theorem flatMap_split {α β : Type} (f : α → List β) (L : List α) (a : α) (h : a ∈ L) :
    ∃ pre post, L.flatMap f = pre ++ f a ++ post := by
  obtain ⟨s, t, rfl⟩ := List.append_of_mem h
  exact ⟨s.flatMap f, t.flatMap f, by simp⟩

/-- C10 (amended): for a non-zero texture, `createFBO` attaches mip level 0 (and
no other level) of every layer in `[0, layers)` and every face (6 for a cube,
1 otherwise) at every attachment role of the format that is not `GL_NONE`;
when `clear` is requested, the attachment calls of each (layer, face) are
followed directly by a clear to depth 1.0 / stencil 0 for a depth-stencil
format and to transparent black otherwise; it returns the status reported by
the driver and leaves the previously bound framebuffer bound. -/
theorem createFBO_attachment_coverage (env : Env) (drv : Driver) (texType : TextureType)
    (format : PixelFormat) (texture : GLuint) (layers : Nat) (clear : Bool) (gl : GLState)
    (ht : texture ≠ 0) :
    ∃ added : List Call,
      (createFBO env drv texType format texture layers clear gl).1.log = gl.log ++ added
      ∧ (∀ layer, layer < layers → ∀ face, face < faceCount texType →
          ∀ attachment, attachment ∈ (env.convertPixelFormat format false false).framebufferAttachments →
            attachment ≠ GL_NONE →
            Call.framebufferTexture attachment texType texture 0 layer face ∈ added)
      ∧ (clear = true → ∀ layer, layer < layers → ∀ face, face < faceCount texType →
          ∃ pre post, added =
            pre ++ attachCalls (env.convertPixelFormat format false false) texType texture layer face
              ++ clearCalls env format gl.depthWrites ++ post)
      ∧ (∀ attachment tt tx level layer face,
          Call.framebufferTexture attachment tt tx level layer face ∈ added → level = 0)
      ∧ (createFBO env drv texType format texture layers clear gl).2.2 = drv.textureFramebufferStatus
      ∧ (createFBO env drv texType format texture layers clear gl).1.framebuffer = gl.framebuffer := by
  refine ⟨createFBOCalls env drv texType format texture layers clear gl, ?_, ?_, ?_, ?_, ?_, ?_⟩
  · rw [createFBO_eq]
    rfl
  · intro layer hl face hf a ha hne
    unfold createFBOCalls
    rw [if_pos ht]
    apply List.mem_append_left
    apply List.mem_append_right
    apply List.mem_append_right
    refine List.mem_flatMap.2 ⟨layer, by simpa using hl, ?_⟩
    refine List.mem_flatMap.2 ⟨face, by simpa using hf, ?_⟩
    unfold blockCalls attachCalls
    apply List.mem_append_left
    exact List.mem_map.2 ⟨a, by simpa using ⟨ha, hne⟩, rfl⟩
  · intro hc layer hl face hf
    obtain ⟨pre1, post1, h1⟩ := flatMap_split
      (fun layer => (List.range (faceCount texType)).reverse.flatMap fun face =>
        blockCalls env (env.convertPixelFormat format false false) texType format texture
          clear gl.depthWrites layer face)
      (List.range layers).reverse layer (by simpa using hl)
    obtain ⟨pre2, post2, h2⟩ := flatMap_split
      (fun face => blockCalls env (env.convertPixelFormat format false false) texType format texture
          clear gl.depthWrites layer face)
      (List.range (faceCount texType)).reverse face (by simpa using hf)
    refine ⟨[Call.genFramebuffers drv.framebufferName, Call.bindFramebuffer drv.framebufferName]
        ++ disableColorBuffersCalls env drv format ++ pre1 ++ pre2,
      post2 ++ post1 ++ [Call.bindFramebuffer gl.framebuffer], ?_⟩
    unfold createFBOCalls
    rw [if_pos ht, h1, h2]
    simp [blockCalls, hc]
  · intro a tt tx level layer face hmem
    have h := createFBOCalls_builder env drv texType format texture layers clear gl _ hmem
    simpa [Call.isFramebufferBuilderCall] using h
  · rw [createFBO_eq]
  · rw [createFBO_eq]
    rfl

/-- Witness for C10: a cube texture with handle 7 and one layer; face 5 of
layer 0 is attached at level 0. -/
theorem createFBO_attachment_coverage_witness :
    (7 : GLuint) ≠ 0
    ∧ Call.framebufferTexture 0x8CE0 TextureType.TEXTURE_CUBE 7 0 0 5
        ∈ (createFBO sampleEnv sampleDriver TextureType.TEXTURE_CUBE
            PixelFormat.PIXELFORMAT_RGBA8_UNORM 7 1 true sampleGL).1.log
    ∧ (createFBO sampleEnv sampleDriver TextureType.TEXTURE_CUBE
        PixelFormat.PIXELFORMAT_RGBA8_UNORM 7 1 true sampleGL).2.2 = GL_FRAMEBUFFER_COMPLETE
    ∧ (createFBO sampleEnv sampleDriver TextureType.TEXTURE_CUBE
        PixelFormat.PIXELFORMAT_RGBA8_UNORM 7 1 true sampleGL).1.framebuffer = 0 := by
  obtain ⟨added, hlog, hcov, _, _, hst, hfb⟩ :=
    createFBO_attachment_coverage sampleEnv sampleDriver TextureType.TEXTURE_CUBE
      PixelFormat.PIXELFORMAT_RGBA8_UNORM 7 1 true sampleGL (by decide)
  refine ⟨by decide, ?_, hst, hfb⟩
  rw [hlog]
  exact List.mem_append_right _ (hcov 0 (by decide) 5 (by decide) 0x8CE0 (by decide) (by decide))

/-! ## What the texture path leaves alone -/

/-- State `b` is reached from `a` by steps that keep the base class settings,
the texture and renderbuffer handles and `actualSamples`, and that only add
calls other than `glGenRenderbuffers` to the log. -/
structure TexturePath (a b : World) : Prop where
  base : b.tex.toTextureBase = a.tex.toTextureBase
  texture : b.tex.texture = a.tex.texture
  renderbuffer : b.tex.renderbuffer = a.tex.renderbuffer
  actualSamples : b.tex.actualSamples = a.tex.actualSamples
  log : ∃ added, b.gl.log = a.gl.log ++ added ∧ ∀ c ∈ added, c.isGenRenderbuffers = false

theorem TexturePath.refl (a : World) : TexturePath a a :=
  ⟨rfl, rfl, rfl, rfl, [], by simp, by simp⟩

theorem TexturePath.trans {a b c : World} (hab : TexturePath a b) (hbc : TexturePath b c) :
    TexturePath a c := by
  obtain ⟨l1, h1, p1⟩ := hab.log
  obtain ⟨l2, h2, p2⟩ := hbc.log
  refine ⟨hbc.base.trans hab.base, hbc.texture.trans hab.texture,
    hbc.renderbuffer.trans hab.renderbuffer, hbc.actualSamples.trans hab.actualSamples,
    l1 ++ l2, by rw [h2, h1, List.append_assoc], ?_⟩
  intro c hc
  rcases List.mem_append.1 hc with h | h
  · exact p1 c h
  · exact p2 c h

theorem TexturePath.call (w : World) (c : Call) (hc : c.isGenRenderbuffers = false) :
    TexturePath w (w.call c) :=
  ⟨rfl, rfl, rfl, rfl, [c], rfl, by simpa using hc⟩

theorem TexturePath.andThen {a : World} {o : Outcome} {f : World → Outcome}
    (h : TexturePath a o.world) (hf : ∀ v, TexturePath v (f v).world) :
    TexturePath a (o.andThen f).world := by
  unfold Outcome.andThen
  split
  · exact h.trans (hf _)
  · exact h

theorem TexturePath.forEach {α : Type} (body : α → World → Outcome)
    (hb : ∀ a v, TexturePath v (body a v).world) :
    ∀ (l : List α) (w : World), TexturePath w (forEach l body w).world
  | [], w => TexturePath.refl w
  | a :: rest, w => by
    unfold GLTexture.forEach
    exact TexturePath.andThen (hb a w) (TexturePath.forEach body hb rest)

theorem setSamplerState_path (env : Env) (drv : Driver) (s : SamplerState) (w : World) :
    TexturePath w (setSamplerState env drv s w).world := by
  unfold setSamplerState
  split_ifs
  · exact TexturePath.refl w
  · refine TexturePath.andThen ?_ ?_
    · unfold baseSetSamplerState
      split_ifs
      · exact ⟨rfl, rfl, rfl, rfl, [], by simp [Outcome.ok], by simp⟩
      · exact TexturePath.refl w
    · intro v
      have ha : TexturePath v
          ({ v with tex := { v.tex with samplerState := downgradeSamplerState env drv v.tex } } : World) :=
        ⟨rfl, rfl, rfl, rfl, [], by simp, by simp⟩
      exact (ha.trans (TexturePath.call _ _ (by rfl))).trans (TexturePath.call _ _ (by rfl))

theorem uploadByteData_path (env : Env) (pixelformat : PixelFormat) (data : List Nat)
    (size level slice : Nat) (r : Rect) (imgd : Option ImageDataBase) (w : World) :
    TexturePath w (uploadByteData env pixelformat data size level slice r imgd w).world := by
  have h1 : TexturePath w (replaceSlice level slice imgd w) := by
    unfold replaceSlice
    dsimp only
    split
    · split_ifs
      · exact ⟨rfl, rfl, rfl, rfl, [], by simp, by simp⟩
      · exact TexturePath.refl w
    · exact TexturePath.refl w
  have h2 : TexturePath w ((replaceSlice level slice imgd w).call
      (Call.bindTextureToUnit (replaceSlice level slice imgd w).tex.texType
        (replaceSlice level slice imgd w).tex.texture 0)) :=
    h1.trans (TexturePath.call _ _ (by rfl))
  unfold uploadByteData
  dsimp only
  split_ifs
  all_goals first
    | exact h2
    | exact h2.trans (TexturePath.call _ _ (by rfl))

theorem uploadImageData_path (env : Env) (d : ImageDataBase) (level slice : Nat) (x y : Int)
    (w : World) : TexturePath w (uploadImageData env d level slice x y w).world :=
  uploadByteData_path env _ _ _ _ _ _ _ w

theorem generateMipmaps_path (env : Env) (drv : Driver) (w : World) :
    TexturePath w (generateMipmaps env drv w).world := by
  unfold generateMipmaps
  split_ifs
  · exact TexturePath.refl w
  · exact TexturePath.refl w
  · exact ((TexturePath.call w _ (by rfl)).trans (TexturePath.call _ (Call.enable _) (by rfl))).trans
      (TexturePath.call _ (Call.generateMipmap _) (by rfl))
  · exact (TexturePath.call w _ (by rfl)).trans (TexturePath.call _ (Call.generateMipmap _) (by rfl))

theorem createTextureLevel_path (env : Env) (fmt : TextureFormat) (slicecount mip : Nat)
    (e : Extent) (w : World) :
    TexturePath w (createTextureLevel env fmt slicecount mip e w).world := by
  unfold createTextureLevel
  dsimp only
  refine TexturePath.trans ?_ (TexturePath.forEach _ ?_ _ _)
  · split_ifs
    all_goals first
      | exact TexturePath.refl w
      | exact TexturePath.call w _ (by rfl)
  · intro slice v
    split
    · exact uploadImageData_path env _ _ _ _ _ v
    · exact TexturePath.refl v

theorem createTextureLevels_path (env : Env) (fmt : TextureFormat) (slicecount : Nat) :
    ∀ (mips : List Nat) (e : Extent) (w : World),
      TexturePath w (createTextureLevels env fmt slicecount mips e w).1.world
  | [], _, w => TexturePath.refl w
  | mip :: rest, e, w => by
    unfold createTextureLevels
    dsimp only
    split
    · exact createTextureLevel_path env fmt slicecount mip e w
    · exact (createTextureLevel_path env fmt slicecount mip e w).trans
        (createTextureLevels_path env fmt slicecount rest _ _)

theorem isFramebufferBuilderCall_not_gen (c : Call) (h : c.isFramebufferBuilderCall = true) :
    c.isGenRenderbuffers = false := by
  cases c <;> first | rfl | simp [Call.isFramebufferBuilderCall] at h

theorem finishTexture_path (env : Env) (drv : Driver) (e : Extent) (w : World) :
    TexturePath w (finishTexture env drv e w).world := by
  unfold finishTexture
  dsimp only
  refine TexturePath.andThen ?_ ?_
  · split_ifs
    all_goals first
      | exact TexturePath.refl w
      | exact TexturePath.forEach _ (fun i v => uploadByteData_path env _ _ _ _ _ _ _ v) _ _
      | (rw [createFBO_eq]
         exact ⟨rfl, rfl, rfl, rfl, _, rfl,
          fun c hc => isFramebufferBuilderCall_not_gen c (createFBOCalls_builder _ _ _ _ _ _ _ _ c hc)⟩)
  · intro v
    split_ifs
    · exact generateMipmaps_path env drv v
    · exact TexturePath.refl v

theorem createDefaultTexture_path (env : Env) (drv : Driver) (w : World) :
    TexturePath w (createDefaultTexture env drv w).world := by
  unfold createDefaultTexture
  dsimp only
  have h1 : TexturePath w ({ w with tex := { w.tex with usingDefaultTexture := true } } : World) :=
    ⟨rfl, rfl, rfl, rfl, [], by simp, by simp⟩
  refine TexturePath.andThen (h1.trans (setSamplerState_path env drv _ _)) ?_
  intro v
  exact (TexturePath.call v _ (by rfl)).trans
    (TexturePath.forEach _ (fun i u => uploadByteData_path env _ _ _ _ _ _ _ u) _ _)

theorem createRegularTexture_path (env : Env) (drv : Driver) (w : World) :
    TexturePath w (createRegularTexture env drv w).world := by
  unfold createRegularTexture
  dsimp only
  have h1 : TexturePath w
      (if w.tex.renderTarget = true ∧ drv.GLAD_ANGLE_texture_usage = true then
        w.call (Call.texParameteri w.tex.texType GL_TEXTURE_USAGE_ANGLE GL_FRAMEBUFFER_ATTACHMENT_ANGLE)
      else w) := by
    split_ifs
    · exact TexturePath.call w _ (by rfl)
    · exact TexturePath.refl w
  refine TexturePath.andThen (h1.trans (setSamplerState_path env drv _ _)) ?_
  intro v
  refine TexturePath.andThen (TexturePath.trans ?_ (createTextureLevels_path env _ _ _ _ _))
    (finishTexture_path env drv _)
  split_ifs
  all_goals first
    | exact TexturePath.refl v
    | exact TexturePath.call v _ (by rfl)

/-- `createTexture` stores the generated texture name and then only takes
steps of the texture path. -/
theorem createTexture_path (env : Env) (drv : Driver) (w : World) :
    TexturePath ({ w with tex := { w.tex with texture := drv.textureName } } : World)
      (createTexture env drv w).world := by
  unfold createTexture
  dsimp only
  have h1 : TexturePath ({ w with tex := { w.tex with texture := drv.textureName } } : World)
      ((({ w with tex := { w.tex with texture := drv.textureName } } : World).call
        (Call.genTextures drv.textureName)).call
        (Call.bindTextureToUnit w.tex.texType drv.textureName 0)) :=
    (TexturePath.call _ _ (by rfl)).trans (TexturePath.call _ _ (by rfl))
  split_ifs
  · exact h1.trans (createDefaultTexture_path env drv _)
  · exact h1.trans (createRegularTexture_path env drv _)

/-! ## Handle invariant of the volatile lifecycle -/

theorem unloadVolatile_handles (env : Env) (w : World) :
    (unloadVolatile env w).tex.texture = 0 ∧ (unloadVolatile env w).tex.renderbuffer = 0
      ∧ (unloadVolatile env w).tex.fbo = 0 := by
  simp [unloadVolatile, setGraphicsMemorySize]

theorem beginLoad_base (env : Env) (drv : Driver) (w : World) :
    (beginLoad env drv w).tex.toTextureBase = w.tex.toTextureBase := by
  unfold beginLoad degradeNPOT
  split_ifs <;> rfl

theorem beginLoad_renderbuffer (env : Env) (drv : Driver) (w : World) :
    (beginLoad env drv w).tex.renderbuffer = w.tex.renderbuffer := by
  unfold beginLoad degradeNPOT
  split_ifs <;> rfl

theorem beginLoad_gl (env : Env) (drv : Driver) (w : World) :
    (beginLoad env drv w).gl = w.gl := by
  unfold beginLoad degradeNPOT
  split_ifs <;> rfl

theorem beginLoad_actualSamples (env : Env) (drv : Driver) (w : World) :
    (beginLoad env drv w).tex.actualSamples = max 1 (min w.tex.requestedMSAA drv.maxSamples) := by
  unfold beginLoad degradeNPOT
  split_ifs <;> rfl

theorem createRenderbuffer_texture (env : Env) (drv : Driver) (w : World) :
    (createRenderbuffer env drv w).1.tex.texture = w.tex.texture := by
  unfold createRenderbuffer
  split_ifs <;> rfl

theorem createRenderbuffer_base (env : Env) (drv : Driver) (w : World) :
    (createRenderbuffer env drv w).1.tex.toTextureBase = w.tex.toTextureBase := by
  unfold createRenderbuffer
  split_ifs <;> rfl

/-- When `loadVolatile` runs the load and fails, the state is the one left by
`unloadVolatile`. -/
theorem loadVolatile_failure_shape (env : Env) (drv : Driver) (w : World)
    (hf : (loadVolatile env drv w).error ≠ none) :
    (loadVolatile env drv w).world
      = unloadVolatile env (createResources env drv (beginLoad env drv w)).world := by
  unfold loadVolatile at hf ⊢
  split_ifs at hf ⊢
  · exact absurd rfl hf
  · generalize createResources env drv (beginLoad env drv w) = o at hf ⊢
    obtain ⟨ow, oe⟩ := o
    cases oe with
    | some e => rfl
    | none => exact absurd rfl hf

/-- On a readable resource, a successful `createResources` leaves the texture
name generated by the driver in the texture handle. -/
theorem createResources_readable (env : Env) (drv : Driver) (u v : World)
    (hr : u.tex.readable = true) (hv : createResources env drv u = Outcome.ok v) :
    v.tex.texture = drv.textureName := by
  have hp := createTexture_path env drv u
  unfold createResources at hv
  rw [if_pos hr] at hv
  generalize createTexture env drv u = o at hv hp
  obtain ⟨ow, oe⟩ := o
  cases oe with
  | some e => simp [Outcome.andThen, Outcome.ok] at hv
  | none =>
    have ht : ow.tex.texture = drv.textureName := hp.texture
    simp only [Outcome.andThen] at hv
    split_ifs at hv
    all_goals first
      | (simp [Outcome.throw, Outcome.ok] at hv; done)
      | (have hv' : _ = v := congrArg Outcome.world hv
         rw [← hv']
         first
           | exact ht
           | exact (createRenderbuffer_texture env drv ow).trans ht)

/-- The buffer name returned by `newRenderbuffer` is the generated name when
the framebuffer is complete and multisampling was not downgraded. -/
theorem newRenderbuffer_buffer (env : Env) (drv : Driver) (width height samples : Nat)
    (pixelformat : PixelFormat) (gl : GLState)
    (hc : drv.renderbufferFramebufferStatus = GL_FRAMEBUFFER_COMPLETE)
    (hs : samples ≤ 1 ∨ 1 < drv.renderbufferSamples) :
    (newRenderbuffer env drv width height samples pixelformat gl).2.2.1 = drv.renderbufferName := by
  have hcond : drv.renderbufferFramebufferStatus = GL_FRAMEBUFFER_COMPLETE
      ∧ (samples ≤ 1 ∨ (if samples > 1 then drv.renderbufferSamples else samples) > 1) := by
    refine ⟨hc, ?_⟩
    by_cases h1 : samples > 1
    · rcases hs with h | h
      · omega
      · right
        rw [if_pos h1]
        exact h
    · left
      omega
  unfold newRenderbuffer
  simp only [if_pos hcond]

/-- On a resource that is not readable, a successful `createResources` leaves
the generated renderbuffer name in the renderbuffer handle when the driver
reports the framebuffer complete and does not downgrade multisampling. -/
theorem createResources_unreadable (env : Env) (drv : Driver) (u v : World)
    (hr : u.tex.readable = false) (hv : createResources env drv u = Outcome.ok v)
    (hc : drv.renderbufferFramebufferStatus = GL_FRAMEBUFFER_COMPLETE)
    (hs : u.tex.actualSamples ≤ 1 ∨ 1 < drv.renderbufferSamples) :
    v.tex.renderbuffer = drv.renderbufferName := by
  unfold createResources at hv
  have hr' : ¬ u.tex.readable = true := by simp [hr]
  rw [if_neg hr'] at hv
  simp only [Outcome.andThen, Outcome.ok] at hv
  have hcond : u.tex.readable = false ∨ u.tex.actualSamples > 1 := Or.inl hr
  rw [if_pos hcond] at hv
  split_ifs at hv
  · simp [Outcome.throw] at hv
  · have hv' : _ = v := congrArg Outcome.world hv
    rw [← hv']
    unfold createRenderbuffer
    have hn : ¬ (u.tex.readable = true ∧ u.tex.actualSamples ≤ 1) := fun h => hr' h.1
    rw [if_neg hn]
    exact newRenderbuffer_buffer env drv _ _ _ _ _ hc hs

/-- C1 (amended): if `loadVolatile` returns successfully then the texture handle
or the renderbuffer handle is non-zero, provided the resource is readable (and
`glGenTextures` gave a non-zero name), or it is not readable and the driver
reports the renderbuffer framebuffer complete without downgrading a
multisample request (and `glGenRenderbuffers` gave a non-zero name). After a
`loadVolatile` that fails with an error, and after `unloadVolatile`, the
texture, renderbuffer and framebuffer handles are all zero, for every resource
and every driver behaviour. -/
theorem loadVolatile_handle_invariant (env : Env) (drv : Driver) (w : World) :
    ((loadVolatile env drv w).error = none → w.tex.readable = true →
        drv.textureName ≠ 0 →
        ((loadVolatile env drv w).world.tex.texture ≠ 0
          ∨ (loadVolatile env drv w).world.tex.renderbuffer ≠ 0))
    ∧ ((loadVolatile env drv w).error = none → w.tex.readable = false →
        drv.renderbufferName ≠ 0 →
        drv.renderbufferFramebufferStatus = GL_FRAMEBUFFER_COMPLETE →
        (max 1 (min w.tex.requestedMSAA drv.maxSamples) ≤ 1 ∨ 1 < drv.renderbufferSamples) →
        ((loadVolatile env drv w).world.tex.texture ≠ 0
          ∨ (loadVolatile env drv w).world.tex.renderbuffer ≠ 0))
    ∧ ((loadVolatile env drv w).error ≠ none →
        (loadVolatile env drv w).world.tex.texture = 0
          ∧ (loadVolatile env drv w).world.tex.renderbuffer = 0
          ∧ (loadVolatile env drv w).world.tex.fbo = 0)
    ∧ ((unloadVolatile env w).tex.texture = 0 ∧ (unloadVolatile env w).tex.renderbuffer = 0
        ∧ (unloadVolatile env w).tex.fbo = 0) := by
  have hearly : (w.tex.texture ≠ 0 ∨ w.tex.renderbuffer ≠ 0) →
      ((loadVolatile env drv w).world.tex.texture ≠ 0
        ∨ (loadVolatile env drv w).world.tex.renderbuffer ≠ 0) := by
    intro h
    unfold loadVolatile
    rw [if_pos h]
    exact h
  refine ⟨fun hs hr hT => ?_, fun hs hr hR hc hg => ?_, fun hf => ?_, unloadVolatile_handles env w⟩
  · by_cases h : w.tex.texture ≠ 0 ∨ w.tex.renderbuffer ≠ 0
    · exact hearly h
    · have h0 : w.tex.texture = 0 ∧ w.tex.renderbuffer = 0 := by
        constructor <;> by_contra hh <;> exact h (by simp [hh])
      obtain ⟨v, hv, hw⟩ := loadVolatile_success_shape env drv w h0 hs
      have hr' : (beginLoad env drv w).tex.readable = true := by
        have := congrArg TextureBase.readable (beginLoad_base env drv w)
        exact this.trans hr
      have ht := createResources_readable env drv _ v hr' hv
      left
      rw [hw]
      show v.tex.texture ≠ 0
      rw [ht]
      exact hT
  · by_cases h : w.tex.texture ≠ 0 ∨ w.tex.renderbuffer ≠ 0
    · exact hearly h
    · have h0 : w.tex.texture = 0 ∧ w.tex.renderbuffer = 0 := by
        constructor <;> by_contra hh <;> exact h (by simp [hh])
      obtain ⟨v, hv, hw⟩ := loadVolatile_success_shape env drv w h0 hs
      have hr' : (beginLoad env drv w).tex.readable = false := by
        have := congrArg TextureBase.readable (beginLoad_base env drv w)
        exact this.trans hr
      have hg' : (beginLoad env drv w).tex.actualSamples ≤ 1 ∨ 1 < drv.renderbufferSamples := by
        rw [beginLoad_actualSamples]
        exact hg
      have hb := createResources_unreadable env drv _ v hr' hv hc hg'
      right
      rw [hw]
      show v.tex.renderbuffer ≠ 0
      rw [hb]
      exact hR
  · rw [loadVolatile_failure_shape env drv w hf]
    exact unloadVolatile_handles env _

/-- As `sampleDriver`, but the error flag holds `GL_OUT_OF_MEMORY` after creation. -/
def failingDriver : Driver :=
  { sampleDriver with creationError := 0x0505 }

/-- Witness for C1: a readable render target loads with a texture handle, an
unreadable one with a renderbuffer handle; the readable one on a driver that
raises an error ends with all handles zero. -/
theorem loadVolatile_handle_invariant_witness :
    sampleDriver.textureName ≠ 0 ∧ sampleDriver.renderbufferName ≠ 0
    ∧ (loadVolatile sampleEnv sampleDriver (sampleWorld 4 4 true true 4)).error = none
    ∧ ((loadVolatile sampleEnv sampleDriver (sampleWorld 4 4 true true 4)).world.tex.texture ≠ 0
        ∨ (loadVolatile sampleEnv sampleDriver (sampleWorld 4 4 true true 4)).world.tex.renderbuffer ≠ 0)
    ∧ (loadVolatile sampleEnv sampleDriver (sampleWorld 4 4 true false 4)).error = none
    ∧ ((loadVolatile sampleEnv sampleDriver (sampleWorld 4 4 true false 4)).world.tex.texture ≠ 0
        ∨ (loadVolatile sampleEnv sampleDriver (sampleWorld 4 4 true false 4)).world.tex.renderbuffer ≠ 0)
    ∧ (loadVolatile sampleEnv failingDriver (sampleWorld 4 4 true true 4)).error ≠ none
    ∧ ((loadVolatile sampleEnv failingDriver (sampleWorld 4 4 true true 4)).world.tex.texture = 0
        ∧ (loadVolatile sampleEnv failingDriver (sampleWorld 4 4 true true 4)).world.tex.renderbuffer = 0
        ∧ (loadVolatile sampleEnv failingDriver (sampleWorld 4 4 true true 4)).world.tex.fbo = 0) :=
  ⟨by decide, by decide, by decide,
    (loadVolatile_handle_invariant sampleEnv sampleDriver (sampleWorld 4 4 true true 4)).1
      (by decide) (by decide) (by decide),
    by decide,
    (loadVolatile_handle_invariant sampleEnv sampleDriver (sampleWorld 4 4 true false 4)).2.1
      (by decide) (by decide) (by decide) (by decide) (Or.inr (by decide)),
    by decide,
    (loadVolatile_handle_invariant sampleEnv failingDriver (sampleWorld 4 4 true true 4)).2.2.1
      (by decide)⟩

/-! ## Multisample fallback -/

theorem renderbufferAttachLoop_eq (buffer : GLuint) (atts : List GLenum) (g : GLState) :
    atts.foldl (fun g attachment =>
        if attachment ≠ GL_NONE then g.call (Call.framebufferRenderbuffer attachment buffer) else g) g
      = g.append ((atts.filter fun a => decide (a ≠ GL_NONE)).map
          fun a => Call.framebufferRenderbuffer a buffer) := by
  induction atts generalizing g with
  | nil => simp
  | cons a rest ih =>
    rw [List.foldl_cons]
    by_cases ha : a ≠ GL_NONE
    · rw [if_pos ha, ih]
      simp [ha, GLState.call_eq_append]
    · rw [if_neg ha, ih]
      simp [ha]

/-- A multisample request (`samples > 1`) for which the driver reports 1
granted sample: `newRenderbuffer` gives back sample count 1 and buffer 0, and
after the renderbuffer was generated it issues no clear. -/
theorem newRenderbuffer_downgraded (env : Env) (drv : Driver) (width height samples : Nat)
    (pixelformat : PixelFormat) (gl : GLState)
    (hs : 1 < samples) (hG : drv.renderbufferSamples = 1) :
    (newRenderbuffer env drv width height samples pixelformat gl).2.1 = 1
    ∧ (newRenderbuffer env drv width height samples pixelformat gl).2.2.1 = 0
    ∧ ∃ pre post,
        (newRenderbuffer env drv width height samples pixelformat gl).1.log
          = gl.log ++ pre ++ [Call.genRenderbuffers drv.renderbufferName] ++ post
        ∧ (∀ c ∈ pre, c.isGenRenderbuffers = false)
        ∧ (∀ c ∈ post, c.isClear = false) := by
  have hs' : samples > 1 := hs
  have hcond : ¬ (drv.renderbufferFramebufferStatus = GL_FRAMEBUFFER_COMPLETE
      ∧ (samples ≤ 1 ∨ drv.renderbufferSamples > 1)) := by
    rw [hG]
    rintro ⟨_, h | h⟩ <;> omega
  unfold newRenderbuffer
  simp only [if_pos hs']
  simp only [if_neg hcond, renderbufferAttachLoop_eq, disableColorBuffers_eq]
  refine ⟨trivial, trivial,
    [Call.genFramebuffers drv.tempFramebufferName, Call.bindFramebuffer drv.tempFramebufferName]
      ++ disableColorBuffersCalls env drv pixelformat,
    [Call.bindRenderbuffer drv.renderbufferName,
      Call.renderbufferStorageMultisample samples
        (env.convertPixelFormat pixelformat true false).internalformat width height]
      ++ (((env.convertPixelFormat pixelformat true false).framebufferAttachments.filter
            fun a => decide (a ≠ GL_NONE)).map
            fun a => Call.framebufferRenderbuffer a drv.renderbufferName)
      ++ [Call.bindRenderbuffer 0, Call.deleteRenderbuffers drv.renderbufferName,
          Call.bindFramebuffer gl.framebuffer, Call.deleteFramebuffer drv.tempFramebufferName],
    ?_, ?_, ?_⟩
  · simp [GLState.call, GLState.bindFramebuffer, GLState.append]
  · intro c hc
    rcases List.mem_append.1 hc with h | h
    · simp at h
      rcases h with h | h <;> subst h <;> rfl
    · exact isFramebufferBuilderCall_not_gen c (disableColorBuffersCalls_builder env drv pixelformat c h)
  · intro c hc
    rcases List.mem_append.1 hc with h | h
    · rcases List.mem_append.1 h with h | h
      · simp at h
        rcases h with h | h <;> subst h <;> rfl
      · obtain ⟨a, _, rfl⟩ := List.mem_map.1 h
        rfl
    · simp at h
      casesm* _ ∨ _ <;> subst_vars <;> rfl

/-- The calls of `unloadVolatile` contain no clear, and `actualSamples` is kept. -/
theorem unloadVolatile_calls (env : Env) (w : World) :
    (unloadVolatile env w).tex.actualSamples = w.tex.actualSamples
    ∧ ∃ added, (unloadVolatile env w).gl.log = w.gl.log ++ added
        ∧ ∀ c ∈ added, c.isClear = false := by
  refine ⟨by simp [unloadVolatile, setGraphicsMemorySize]; split_ifs <;> rfl, ?_⟩
  have step : ∀ (v : World) (p : Prop) [Decidable p] (c : Call), c.isClear = false →
      ∃ added, (if p then v.call c else v).gl.log = v.gl.log ++ added
        ∧ ∀ c ∈ added, c.isClear = false := by
    intro v p _ c hc
    split_ifs
    · exact ⟨[c], rfl, by simpa using hc⟩
    · exact ⟨[], by simp, by simp⟩
  unfold unloadVolatile
  dsimp only
  generalize hw1 : (if w.tex.renderTarget = true ∧ (w.tex.fbo ≠ 0 ∨ w.tex.renderbuffer ≠ 0 ∨ w.tex.texture ≠ 0) then
      if env.graphicsModule = true then w.call Call.cleanupRenderTexture else w
    else w) = w1
  have h1 : ∃ added, w1.gl.log = w.gl.log ++ added ∧ ∀ c ∈ added, c.isClear = false := by
    rw [← hw1]
    split_ifs
    · exact ⟨[Call.cleanupRenderTexture], rfl, by simp [Call.isClear]⟩
    · exact ⟨[], by simp, by simp⟩
    · exact ⟨[], by simp, by simp⟩
  obtain ⟨a1, e1, p1⟩ := h1
  obtain ⟨a2, e2, p2⟩ := step w1 (w1.tex.fbo ≠ 0) (Call.deleteFramebuffer w1.tex.fbo) rfl
  generalize (if w1.tex.fbo ≠ 0 then w1.call (Call.deleteFramebuffer w1.tex.fbo) else w1) = w2 at e2 ⊢
  obtain ⟨a3, e3, p3⟩ := step w2 (w2.tex.renderbuffer ≠ 0) (Call.deleteRenderbuffers w2.tex.renderbuffer) rfl
  generalize (if w2.tex.renderbuffer ≠ 0 then w2.call (Call.deleteRenderbuffers w2.tex.renderbuffer) else w2)
    = w3 at e3 ⊢
  obtain ⟨a4, e4, p4⟩ := step w3 (w3.tex.texture ≠ 0) (Call.deleteTexture w3.tex.texture) rfl
  generalize (if w3.tex.texture ≠ 0 then w3.call (Call.deleteTexture w3.tex.texture) else w3) = w4 at e4 ⊢
  refine ⟨a1 ++ a2 ++ a3 ++ a4, ?_, ?_⟩
  · show w4.gl.log = _
    rw [e4, e3, e2, e1]
    simp
  · intro c hc
    simp only [List.mem_append] at hc
    rcases hc with ((h | h) | h) | h
    · exact p1 c h
    · exact p2 c h
    · exact p3 c h
    · exact p4 c h

/-- The creation step under a downgraded multisample request: whatever the
error flag says, the sample count is back to 1, the renderbuffer handle is 0,
and no clear follows the generation of the renderbuffer. -/
theorem createResources_fallback (env : Env) (drv : Driver) (u : World)
    (hs : 1 < u.tex.actualSamples) (hG : drv.renderbufferSamples = 1)
    (hTex : u.tex.readable = true → (createTexture env drv u).error = none) :
    (createResources env drv u).world.tex.actualSamples = 1
    ∧ (createResources env drv u).world.tex.renderbuffer = 0
    ∧ (∃ pre post,
        (createResources env drv u).world.gl.log
          = u.gl.log ++ pre ++ [Call.genRenderbuffers drv.renderbufferName] ++ post
        ∧ (∀ c ∈ pre, c.isGenRenderbuffers = false)
        ∧ (∀ c ∈ post, c.isClear = false))
    ∧ (drv.creationError = GL_NO_ERROR → (createResources env drv u).error = none) := by
  have h1 : (if u.tex.readable = true then createTexture env drv u else Outcome.ok u).error = none
      ∧ ∃ u' : World,
          TexturePath u' (if u.tex.readable = true then createTexture env drv u else Outcome.ok u).world
          ∧ u'.tex.actualSamples = u.tex.actualSamples ∧ u'.gl.log = u.gl.log := by
    by_cases hr : u.tex.readable = true
    · rw [if_pos hr]
      exact ⟨hTex hr, _, createTexture_path env drv u, rfl, rfl⟩
    · rw [if_neg hr]
      exact ⟨rfl, u, TexturePath.refl u, rfl, rfl⟩
  unfold createResources
  generalize (if u.tex.readable = true then createTexture env drv u else Outcome.ok u) = o1 at h1 ⊢
  obtain ⟨w1, e1⟩ := o1
  obtain ⟨he, u', hp, ha, hl⟩ := h1
  have he' : e1 = none := he
  subst he'
  have hpa : w1.tex.actualSamples = u'.tex.actualSamples := hp.actualSamples
  have hw1 : 1 < w1.tex.actualSamples := by omega
  have hc1 : w1.tex.readable = false ∨ w1.tex.actualSamples > 1 := Or.inr hw1
  have hc2 : ¬ (w1.tex.readable = true ∧ w1.tex.actualSamples ≤ 1) := by
    rintro ⟨_, h⟩
    omega
  obtain ⟨d1, d2, pre, post, dlog, dpre, dpost⟩ := newRenderbuffer_downgraded env drv
    w1.tex.pixelWidth w1.tex.pixelHeight w1.tex.actualSamples w1.tex.format w1.gl hw1 hG
  obtain ⟨added, hadd, hgen⟩ := hp.log
  have hadd' : w1.gl.log = u.gl.log ++ added := by
    rw [← hl]
    exact hadd
  have hrb : (createRenderbuffer env drv w1).1.tex.actualSamples = 1
      ∧ (createRenderbuffer env drv w1).1.tex.renderbuffer = 0
      ∧ (createRenderbuffer env drv w1).1.gl.log
          = u.gl.log ++ (added ++ pre) ++ [Call.genRenderbuffers drv.renderbufferName] ++ post := by
    unfold createRenderbuffer
    rw [if_neg hc2]
    refine ⟨d1, d2, ?_⟩
    show (newRenderbuffer env drv w1.tex.pixelWidth w1.tex.pixelHeight w1.tex.actualSamples
      w1.tex.format w1.gl).1.log = _
    rw [dlog, hadd']
    simp
  have hpre : ∀ c ∈ added ++ pre, c.isGenRenderbuffers = false := by
    intro c hc
    rcases List.mem_append.1 hc with h | h
    · exact hgen c h
    · exact dpre c h
  simp only [Outcome.andThen, if_pos hc1]
  split_ifs with hce
  · exact ⟨hrb.1, hrb.2.1, ⟨added ++ pre, post, hrb.2.2, hpre, dpost⟩, fun h => absurd h hce⟩
  · exact ⟨hrb.1, hrb.2.1, ⟨added ++ pre, post, hrb.2.2, hpre, dpost⟩, fun _ => rfl⟩

/-- C7 (amended): for an unloaded resource that requests more than one sample
on a driver whose maximum is above 1 and whose renderbuffer allocation
reports 1 granted sample, and whose texture path (if the resource is readable)
raises no error: after `loadVolatile`, `actualSamples` is 1, the renderbuffer
handle is 0, and the renderbuffer was never cleared: the log splits at its
`glGenRenderbuffers` call, the first of this load, and no `glClear` comes
after it; `loadVolatile` returns success if the driver error flag is clear. -/
theorem loadVolatile_multisample_fallback (env : Env) (drv : Driver) (w : World)
    (h0 : w.tex.texture = 0 ∧ w.tex.renderbuffer = 0)
    (hN : 1 < w.tex.requestedMSAA) (hM : 1 < drv.maxSamples)
    (hG : drv.renderbufferSamples = 1)
    (hTex : w.tex.readable = true → (createTexture env drv (beginLoad env drv w)).error = none) :
    (loadVolatile env drv w).world.tex.actualSamples = 1
    ∧ (loadVolatile env drv w).world.tex.renderbuffer = 0
    ∧ (∃ pre post,
        (loadVolatile env drv w).world.gl.log
          = w.gl.log ++ pre ++ [Call.genRenderbuffers drv.renderbufferName] ++ post
        ∧ (∀ c ∈ pre, c.isGenRenderbuffers = false)
        ∧ (∀ c ∈ post, c.isClear = false))
    ∧ (drv.creationError = GL_NO_ERROR → (loadVolatile env drv w).error = none) := by
  have hn : ¬ (w.tex.texture ≠ 0 ∨ w.tex.renderbuffer ≠ 0) := by simp [h0.1, h0.2]
  have hu : 1 < (beginLoad env drv w).tex.actualSamples := by
    rw [beginLoad_actualSamples]
    omega
  have hTex' : (beginLoad env drv w).tex.readable = true →
      (createTexture env drv (beginLoad env drv w)).error = none := by
    intro h
    apply hTex
    rw [← h]
    exact (congrArg TextureBase.readable (beginLoad_base env drv w)).symm
  obtain ⟨ca, cr, ⟨pre, post, clog, cpre, cpost⟩, cerr⟩ :=
    createResources_fallback env drv (beginLoad env drv w) hu hG hTex'
  rw [beginLoad_gl] at clog
  unfold loadVolatile
  rw [if_neg hn]
  generalize createResources env drv (beginLoad env drv w) = o at ca cr clog cerr ⊢
  obtain ⟨ow, oe⟩ := o
  cases oe with
  | some e =>
    obtain ⟨ua, added, ulog, uclear⟩ := unloadVolatile_calls env ow
    refine ⟨ua.trans ca, (unloadVolatile_handles env ow).2.1, ⟨pre, post ++ added, ?_, cpre, ?_⟩, ?_⟩
    · show (unloadVolatile env ow).gl.log = _
      rw [ulog]
      have clog' : ow.gl.log
          = w.gl.log ++ pre ++ [Call.genRenderbuffers drv.renderbufferName] ++ post := clog
      rw [clog']
      simp
    · intro c hc
      rcases List.mem_append.1 hc with h | h
      · exact cpost c h
      · exact uclear c h
    · intro h
      have := cerr h
      simp at this
  | none =>
    exact ⟨ca, cr, ⟨pre, post, clog, cpre, cpost⟩, fun _ => rfl⟩

/-- A render target that is not readable and requests 4 samples. -/
def multisampleWorld : World := sampleWorld 4 4 true false 4

/-- Witness for C7: the unreadable render target requesting 4 samples, on the
driver that grants 1. -/
theorem loadVolatile_multisample_fallback_witness :
    (multisampleWorld.tex.texture = 0 ∧ multisampleWorld.tex.renderbuffer = 0)
    ∧ 1 < multisampleWorld.tex.requestedMSAA
    ∧ 1 < singleSampleDriver.maxSamples
    ∧ singleSampleDriver.renderbufferSamples = 1
    ∧ (loadVolatile sampleEnv singleSampleDriver multisampleWorld).world.tex.actualSamples = 1
    ∧ (loadVolatile sampleEnv singleSampleDriver multisampleWorld).world.tex.renderbuffer = 0
    ∧ (∃ pre post,
        (loadVolatile sampleEnv singleSampleDriver multisampleWorld).world.gl.log
          = multisampleWorld.gl.log ++ pre
              ++ [Call.genRenderbuffers singleSampleDriver.renderbufferName] ++ post
        ∧ (∀ c ∈ pre, c.isGenRenderbuffers = false)
        ∧ (∀ c ∈ post, c.isClear = false))
    ∧ (singleSampleDriver.creationError = GL_NO_ERROR →
        (loadVolatile sampleEnv singleSampleDriver multisampleWorld).error = none) :=
  ⟨⟨by decide, by decide⟩, by decide, by decide, by decide,
    loadVolatile_multisample_fallback sampleEnv singleSampleDriver multisampleWorld
      ⟨by decide, by decide⟩ (by decide) (by decide) (by decide) (by decide)⟩

end GLTexture
